import Mathlib

/-!
Shallow embedding of the 311-ai-agent dialogue state machine (src/app.py)
and proofs of the specification claims about it.

The repository is a single-file Streamlit app.  The parts embedded here are
the pure core: text normalization, intent detection, the service catalog and
city profiles, the slot-filling engine (`next_slot_question`), the ticket
finalizer (`finalize_case`), and the dispatcher (`push_user_and_process`).
External collaborators (the geocoding HTTP providers, the system clock and
the random ticket suffix, SQLite persistence) are modelled as an `Env`
record supplying the values the program would receive from them during one
turn; the query strings the program would send to the geocoding providers
are modelled separately (`geocode_any` and its helpers build those strings
purely before any network activity).
-/

namespace NC311

/-- Whitespace characters recognised by Python `str.strip()` / regex `\s`
(ASCII range; the app only compares ASCII text). -/
def isPySpace (c : Char) : Bool :=
  c = ' ' || c = '\t' || c = '\n' || c = '\r' || c = '\x0b' || c = '\x0c'

/-- Drop leading and trailing Python-whitespace, as `str.strip()`. -/
def pyStripList (l : List Char) : List Char :=
  ((l.dropWhile isPySpace).reverse.dropWhile isPySpace).reverse

/-- `text.strip()` on strings. -/
def pyStrip (s : String) : String := ⟨pyStripList s.data⟩

/-- Collapse every run of whitespace to a single space,
as `re.sub(r"\s+", " ", ·)` (source line 32). -/
def collapseWS : List Char → List Char
  | [] => []
  | [c] => [if isPySpace c then ' ' else c]
  | c1 :: c2 :: rest =>
    if isPySpace c1 && isPySpace c2 then collapseWS (c2 :: rest)
    else (if isPySpace c1 then ' ' else c1) :: collapseWS (c2 :: rest)

/-- `normalize(txt) = re.sub(r"\s+", " ", txt.strip().lower())`
(source lines 31-32).  `Char.toLower` lower-cases ASCII letters, which
matches Python for the ASCII text this app compares. -/
def normalize (txt : String) : String :=
  ⟨collapseWS ((pyStripList txt.data).map Char.toLower)⟩

/-- Does `pat` occur as a contiguous sublist of the second argument? -/
def isSubOf (pat : List Char) : List Char → Bool
  | [] => pat.isEmpty
  | c :: rest => pat.isPrefixOf (c :: rest) || isSubOf pat rest

/-- Python substring containment `pat in t`. -/
def containsSub (t pat : String) : Bool :=
  isSubOf pat.data t.data

/-- `contains_any(text, keys)` (source lines 34-36): normalize, then check
whether any keyword occurs as a substring. -/
def contains_any (text : String) (keys : List String) : Bool :=
  let t := normalize text
  keys.any (fun k => containsSub t k)

/-- `ZIP_RE = re.compile(r"^\d{5}$")` match test (source line 38): the
(stripped) value consists of exactly five digits. -/
def zipMatch (v : String) : Bool :=
  v.data.length == 5 && v.data.all Char.isDigit

/-- Python `field.endswith("_optional")`. -/
def endsOptional (f : String) : Bool :=
  "_optional".data.isSuffixOf f.data

/-- Python `str.title()` worker: upper-case a letter that follows a
non-letter, lower-case a letter that follows a letter. -/
def titlecaseGo : List Char → Bool → List Char
  | [], _ => []
  | c :: rest, prevAlpha =>
    if c.isAlpha then
      (if prevAlpha then c.toLower else c.toUpper) :: titlecaseGo rest true
    else c :: titlecaseGo rest false

/-- Python `str.title()` (ASCII; the app title-cases city/state names). -/
def titlecase (s : String) : String := ⟨titlecaseGo s.data false⟩

/-- Split a character list at the first occurrence of `sep`, returning the
part before and the part after, or `none` when `sep` does not occur.
Models Python `s.split(sep, 1)` at its call sites. -/
def splitOnceAux (sep : List Char) : List Char → Option (List Char × List Char)
  | [] => if sep.isEmpty then some ([], []) else none
  | c :: rest =>
    if sep.isPrefixOf (c :: rest) then some ([], (c :: rest).drop sep.length)
    else
      match splitOnceAux sep rest with
      | some (pre, post) => some (c :: pre, post)
      | none => none

/-- The part of `s` before the first occurrence of `sep` (whole string if
`sep` is absent, as Python `s.split(sep,1)[0]`). -/
def beforeFirst (s sep : String) : String :=
  match splitOnceAux sep.data s.data with
  | some (pre, _) => ⟨pre⟩
  | none => s

/-- The part of `s` after the first occurrence of `sep`; call sites are
guarded so that `sep` occurs (Python `s.split(sep,1)[1]`). -/
def afterFirst (s sep : String) : String :=
  match splitOnceAux sep.data s.data with
  | some (_, post) => ⟨post⟩
  | none => s

/-- Python `str.strip(" .,:;")`. -/
def stripPunct (s : String) : String :=
  let cs : List Char := [' ', '.', ',', ':', ';']
  ⟨((s.data.dropWhile (cs.contains ·)).reverse.dropWhile (cs.contains ·)).reverse⟩

/-- Truthiness of `st.session_state.active_intent` in Python
(`None` and the empty string are falsy). -/
def pyTruthyOpt : Option String → Bool
  | none => false
  | some s => s ≠ ""

/-! ## Service catalog (source lines 73-202) -/

/-- One service descriptor from `NC_JURIS_CONFIG` (description, fields,
link, optional `sla_days`). -/
structure SvcDesc where
  description : String
  fields : List String
  link : String
  sla_days : Option Nat
deriving DecidableEq, Repr

/-- A city entry of the catalog: ordered service-key → descriptor map. -/
abbrev Services := List (String × SvcDesc)

/-- Association-list lookup with Python `dict` key semantics
(keys are unique, first match wins). -/
def alist {α : Type} : List (String × α) → String → Option α
  | [], _ => none
  | (k, v) :: rest, key => if k = key then some v else alist rest key

/-- The `"_DEFAULT"` catalog entry (source lines 188-195). -/
def DEFAULT_SERVICES : Services :=
  [ ("pothole", ⟨"Report a pothole or road issue",
      ["street_address", "description", "photo_url_optional"],
      "https://www.ncdot.gov/contact/Pages/default.aspx", none⟩),
    ("trash_schedule", ⟨"Find trash & recycling pickup day (check your city’s sanitation page)",
      ["street_address", "zip_optional"], "https://www.nc.gov/", none⟩),
    ("noise_complaint", ⟨"Report noise disturbance",
      ["location", "description"], "https://www.nc.gov/", none⟩),
    ("streetlight", ⟨"Report a streetlight outage",
      ["nearest_address", "description"], "https://www.ncdot.gov/", none⟩),
    ("stray_animal", ⟨"Report a stray or lost animal",
      ["location", "animal_type", "description"], "https://www.nc.gov/", none⟩),
    ("general_info", ⟨"General information", [], "https://www.nc.gov/", none⟩) ]

/-- `NC_JURIS_CONFIG` (source lines 73-196), as an ordered map
city → services. -/
def NC_JURIS_CONFIG : List (String × Services) :=
  [ ("Morrisville",
      [ ("pothole", ⟨"Report a pothole or road issue on Town-owned roads",
          ["street_address", "description", "photo_url_optional"],
          "https://www.morrisvillenc.gov/services/report-a-problem-with/town-owned-roadways", some 5⟩),
        ("trash_schedule", ⟨"Find trash & recycling pickup day",
          ["street_address", "zip_optional"],
          "https://opendata.townofmorrisville.org/explore/dataset/town-resources/api/", none⟩),
        ("noise_complaint", ⟨"Report excessive noise",
          ["location", "description"],
          "https://www.morrisvillenc.gov/services/report-a-problem-with/town-owned-roadways", none⟩),
        ("streetlight", ⟨"Report a streetlight outage",
          ["nearest_address", "pole_number_optional", "description"],
          "https://www.morrisvillenc.gov/services/report-a-problem-with/town-owned-roadways", some 7⟩),
        ("stray_animal", ⟨"Report a stray or lost animal",
          ["location", "animal_type", "description"],
          "https://www.morrisvillenc.gov/services/report-a-problem-with/town-owned-roadways", none⟩),
        ("general_info", ⟨"General Town information & datasets", [],
          "https://opendata.townofmorrisville.org", none⟩) ]),
    ("Raleigh",
      [ ("pothole", ⟨"Report a pothole or street maintenance issue",
          ["street_address", "description", "photo_url_optional"], "https://raleighnc.gov/", none⟩),
        ("trash_schedule", ⟨"Find trash & recycling day",
          ["street_address", "zip_optional"], "https://raleighnc.gov/", none⟩),
        ("noise_complaint", ⟨"Report noise disturbance",
          ["location", "description"], "https://raleighnc.gov/", none⟩),
        ("streetlight", ⟨"Report a streetlight outage",
          ["nearest_address", "description"], "https://raleighnc.gov/", none⟩),
        ("general_info", ⟨"General city information", [], "https://raleighnc.gov/", none⟩) ]),
    ("Durham",
      [ ("pothole", ⟨"Report pothole or roadway issue",
          ["street_address", "description", "photo_url_optional"], "https://durhamnc.gov/", none⟩),
        ("trash_schedule", ⟨"Find trash & recycling day",
          ["street_address", "zip_optional"], "https://durhamnc.gov/", none⟩),
        ("noise_complaint", ⟨"Report noise disturbance",
          ["location", "description"], "https://durhamnc.gov/", none⟩),
        ("streetlight", ⟨"Report a streetlight outage",
          ["nearest_address", "description"], "https://durhamnc.gov/", none⟩),
        ("general_info", ⟨"General city information", [], "https://durhamnc.gov/", none⟩) ]),
    ("Cary",
      [ ("pothole", ⟨"Report a pothole/road issue (Town of Cary)",
          ["street_address", "description", "photo_url_optional"], "https://www.townofcary.org/", none⟩),
        ("trash_schedule", ⟨"Find curbside collection day (Cary)",
          ["street_address", "zip_optional"], "https://www.townofcary.org/", none⟩),
        ("noise_complaint", ⟨"Report noise disturbance",
          ["location", "description"], "https://www.townofcary.org/", none⟩),
        ("streetlight", ⟨"Report a streetlight outage",
          ["nearest_address", "description"], "https://www.townofcary.org/", none⟩),
        ("general_info", ⟨"General town information", [], "https://www.townofcary.org/", none⟩) ]),
    ("Chapel Hill",
      [ ("pothole", ⟨"Report pothole/streets issue",
          ["street_address", "description", "photo_url_optional"], "https://www.townofchapelhill.org/", none⟩),
        ("trash_schedule", ⟨"Find trash & recycling day",
          ["street_address", "zip_optional"], "https://www.townofchapelhill.org/", none⟩),
        ("noise_complaint", ⟨"Report noise disturbance",
          ["location", "description"], "https://www.townofchapelhill.org/", none⟩),
        ("streetlight", ⟨"Report a streetlight outage",
          ["nearest_address", "description"], "https://www.townofchapelhill.org/", none⟩),
        ("general_info", ⟨"General town information", [], "https://www.townofchapelhill.org/", none⟩) ]),
    ("Charlotte",
      [ ("pothole", ⟨"Report street/road maintenance issue",
          ["street_address", "description", "photo_url_optional"], "https://www.charlottenc.gov/", none⟩),
        ("trash_schedule", ⟨"Find trash & recycling day",
          ["street_address", "zip_optional"], "https://www.charlottenc.gov/", none⟩),
        ("noise_complaint", ⟨"Report noise disturbance",
          ["location", "description"], "https://www.charlottenc.gov/", none⟩),
        ("streetlight", ⟨"Report a streetlight outage",
          ["nearest_address", "description"], "https://www.charlottenc.gov/", none⟩),
        ("general_info", ⟨"General city information", [], "https://www.charlottenc.gov/", none⟩) ]),
    ("Greensboro",
      [ ("pothole", ⟨"Report pothole or street issue",
          ["street_address", "description", "photo_url_optional"], "https://www.greensboro-nc.gov/", none⟩),
        ("trash_schedule", ⟨"Find trash & recycling day",
          ["street_address", "zip_optional"], "https://www.greensboro-nc.gov/", none⟩),
        ("noise_complaint", ⟨"Report noise disturbance",
          ["location", "description"], "https://www.greensboro-nc.gov/", none⟩),
        ("streetlight", ⟨"Report a streetlight outage",
          ["nearest_address", "description"], "https://www.greensboro-nc.gov/", none⟩),
        ("general_info", ⟨"General city information", [], "https://www.greensboro-nc.gov/", none⟩) ]),
    ("Wilmington",
      [ ("pothole", ⟨"Report pothole or roadway issue",
          ["street_address", "description", "photo_url_optional"], "https://www.wilmingtonnc.gov/", none⟩),
        ("trash_schedule", ⟨"Find trash & recycling day",
          ["street_address", "zip_optional"], "https://www.wilmingtonnc.gov/", none⟩),
        ("noise_complaint", ⟨"Report noise disturbance",
          ["location", "description"], "https://www.wilmingtonnc.gov/", none⟩),
        ("streetlight", ⟨"Report a streetlight outage",
          ["nearest_address", "description"], "https://www.wilmingtonnc.gov/", none⟩),
        ("general_info", ⟨"General city information", [], "https://www.wilmingtonnc.gov/", none⟩) ]),
    ("Asheville",
      [ ("pothole", ⟨"Report pothole or street maintenance",
          ["street_address", "description", "photo_url_optional"], "https://www.ashevillenc.gov/", none⟩),
        ("trash_schedule", ⟨"Find trash & recycling day",
          ["street_address", "zip_optional"], "https://www.ashevillenc.gov/", none⟩),
        ("noise_complaint", ⟨"Report noise disturbance",
          ["location", "description"], "https://www.ashevillenc.gov/", none⟩),
        ("streetlight", ⟨"Report a streetlight outage",
          ["nearest_address", "description"], "https://www.ashevillenc.gov/", none⟩),
        ("general_info", ⟨"General city information", [], "https://www.ashevillenc.gov/", none⟩) ]),
    ("Apex",
      [ ("pothole", ⟨"Report pothole or public works issue (Apex)",
          ["street_address", "description", "photo_url_optional"], "https://www.apexnc.org/", none⟩),
        ("trash_schedule", ⟨"Find trash & recycling day",
          ["street_address", "zip_optional"], "https://www.apexnc.org/", none⟩),
        ("noise_complaint", ⟨"Report noise disturbance",
          ["location", "description"], "https://www.apexnc.org/", none⟩),
        ("streetlight", ⟨"Report a streetlight outage",
          ["nearest_address", "description"], "https://www.apexnc.org/", none⟩),
        ("general_info", ⟨"General town information", [], "https://www.apexnc.org/", none⟩) ]),
    ("Wake Forest",
      [ ("pothole", ⟨"Report pothole or street issue",
          ["street_address", "description", "photo_url_optional"], "https://www.wakeforestnc.gov/", none⟩),
        ("trash_schedule", ⟨"Find trash & recycling day",
          ["street_address", "zip_optional"], "https://www.wakeforestnc.gov/", none⟩),
        ("noise_complaint", ⟨"Report noise disturbance",
          ["location", "description"], "https://www.wakeforestnc.gov/", none⟩),
        ("streetlight", ⟨"Report a streetlight outage",
          ["nearest_address", "description"], "https://www.wakeforestnc.gov/", none⟩),
        ("general_info", ⟨"General town information", [], "https://www.wakeforestnc.gov/", none⟩) ]),
    ("Fayetteville",
      [ ("pothole", ⟨"Report pothole or street maintenance",
          ["street_address", "description", "photo_url_optional"], "https://www.fayettevillenc.gov/", none⟩),
        ("trash_schedule", ⟨"Find trash & recycling day",
          ["street_address", "zip_optional"], "https://www.fayettevillenc.gov/", none⟩),
        ("noise_complaint", ⟨"Report noise disturbance",
          ["location", "description"], "https://www.fayettevillenc.gov/", none⟩),
        ("streetlight", ⟨"Report a streetlight outage",
          ["nearest_address", "description"], "https://www.fayettevillenc.gov/", none⟩),
        ("general_info", ⟨"General city information", [], "https://www.fayettevillenc.gov/", none⟩) ]),
    ("High Point",
      [ ("pothole", ⟨"Report pothole or street maintenance",
          ["street_address", "description", "photo_url_optional"], "https://www.highpointnc.gov/", none⟩),
        ("trash_schedule", ⟨"Find trash & recycling day",
          ["street_address", "zip_optional"], "https://www.highpointnc.gov/", none⟩),
        ("noise_complaint", ⟨"Report noise disturbance",
          ["location", "description"], "https://www.highpointnc.gov/", none⟩),
        ("streetlight", ⟨"Report a streetlight outage",
          ["nearest_address", "description"], "https://www.highpointnc.gov/", none⟩),
        ("general_info", ⟨"General city information", [], "https://www.highpointnc.gov/", none⟩) ]),
    ("_DEFAULT", DEFAULT_SERVICES) ]

/-- `NC_JURIS_CONFIG.get(city, NC_JURIS_CONFIG["_DEFAULT"])`
(source line 200). -/
def cfgGetD (city : String) : Services :=
  (alist NC_JURIS_CONFIG city).getD DEFAULT_SERVICES

/-- The active city profile (`city_cfg` in the session): city/state
metadata plus the resolved service map. -/
structure CityProfile where
  city : String
  state : String
  services : Services
deriving DecidableEq, Repr

/-- `make_city_profile(city, state)` (source lines 199-202).  The Python
code copies each descriptor dict one level deep (`{k: dict(v) ...}`); the
observable value built is the one below.  The aliasing consequences of the
shallow copy are modelled separately in the heap model further down. -/
def make_city_profile (city : String := "Morrisville")
    (state : String := "North Carolina") : CityProfile :=
  { city := city, state := state, services := cfgGetD city }

/-! ## NLU / slot configuration (source lines 290-325) -/

/-- `INTENT_PATTERNS` (source lines 290-297), in priority order. -/
def INTENT_PATTERNS : List (String × List String) :=
  [ ("pothole", ["pothole", "road hole", "asphalt", "road damage", "street crack"]),
    ("trash_schedule", ["trash", "garbage", "recycle", "pickup", "collection", "bin"]),
    ("noise_complaint", ["noise", "loud", "party", "music", "construction noise"]),
    ("streetlight", ["streetlight", "light out", "lamp", "street light"]),
    ("stray_animal", ["stray", "dog", "cat", "animal control", "lost pet"]),
    ("general_info", ["info", "information", "hours", "phone", "contact", "permit", "parks"]) ]

/-- `REQUIRED_FIELDS` (source lines 298-304): the hardcoded,
catalog-independent required fields per intent. -/
def REQUIRED_FIELDS : List (String × List String) :=
  [ ("pothole", ["street_address", "description"]),
    ("trash_schedule", ["street_address"]),
    ("noise_complaint", ["location", "description"]),
    ("streetlight", ["nearest_address"]),
    ("stray_animal", ["location", "animal_type"]) ]

/-- `FIELD_QUESTIONS` (source lines 305-316): canned question per field. -/
def FIELD_QUESTIONS : List (String × String) :=
  [ ("street_address", "What is the street address?"),
    ("nearest_intersection", "What is the nearest intersection?"),
    ("description", "Please describe the issue briefly."),
    ("photo_url_optional", "If you have a photo URL, share it (or say \x27skip\x27)."),
    ("zip_optional", "What is the ZIP code? (or say \x27skip\x27)"),
    ("incident_time", "When did this happen? (date & time)"),
    ("location", "Where did this occur? (address, landmark or intersection)"),
    ("pole_number_optional", "If you see a pole number, share it (or say \x27skip\x27)."),
    ("nearest_address", "What is the nearest address to the light?"),
    ("animal_type", "What kind of animal is it?") ]

/-- The fixed adapt-city trigger phrase (source line 320). -/
def ADAPT_TRIGGER : String :=
  "yes please adapt this to my city\x27s open data and services categories"

/-- The greeting set checked by exact equality (source line 324). -/
def GREETINGS : List String := ["help", "menu", "hi", "hello", "start"]

/-- First pattern of the table whose keyword set matches, in table order. -/
def firstIntent (t : String) : List (String × List String) → Option String
  | [] => none
  | (intent, keys) :: rest =>
    if contains_any t keys then some intent else firstIntent t rest

/-- `detect_intent(text)` (source lines 318-325): the adapt-city trigger
phrase (substring test) first, then the priority-ordered keyword table,
then the exact greeting match, else `unknown`. -/
def detect_intent (text : String) : String :=
  if containsSub (normalize text) ADAPT_TRIGGER then "adapt_city"
  else
    match firstIntent (normalize text) INTENT_PATTERNS with
    | some intent => intent
    | none => if GREETINGS.contains (normalize text) then "menu" else "unknown"

/-! ## Geocoding query construction (source lines 213-285)

The HTTP calls themselves are external; what the program computes before
calling any provider is the query string.  These definitions embed that
query construction so the claims about it can be settled. -/

/-- The oneline address `geocode_census` queries first (source line 214):
`raw if not city_hint else f"{raw}, {city_hint}, {state_hint}"`. -/
def censusOneline (raw : String) (city_hint : String) (state_hint : String) : String :=
  if city_hint = "" then raw else raw ++ ", " ++ city_hint ++ ", " ++ state_hint

/-- The first query string `geocode_any` sends for each provider choice
(source lines 278-285).  `googleKeySet` models whether the external
`GOOGLE_MAPS_API_KEY` is configured. -/
def geocode_any_query (raw city_hint provider : String) (googleKeySet : Bool) : String :=
  if provider = "Google (Geocoding)" ∧ googleKeySet then
    raw ++ ", " ++ city_hint ++ ", North Carolina"
  else if provider = "OpenStreetMap (Nominatim)" then
    raw ++ ", " ++ city_hint ++ ", North Carolina"
  else censusOneline raw city_hint "North Carolina"

/-! ## Session state and dialogue controller (source lines 328-515) -/

/-- The normalized record `geocode_*` providers return on success
(source lines 225-226, 239-246, 263-264).  Coordinates are carried as the
display strings the app would interpolate (their numeric value is never
inspected by the core logic). -/
structure GeoRecord where
  matched : Option String
  city : Option String
  state : Option String
  zip : Option String
  lat : Option String
  lon : Option String
deriving DecidableEq, Repr

/-- A value stored in `filled_fields`: a trimmed free-text answer, Python
`None` for a skipped optional field, or the `address_verified` dict built
at source lines 452-455 (record plus provider label). -/
inductive FieldVal where
  | vs (s : String)
  | vnone
  | vaddr (g : GeoRecord) (provider : String)
deriving DecidableEq, Repr

/-- Python truthiness of a `filled_fields` value. -/
def fvTruthy : FieldVal → Bool
  | .vs s => s ≠ ""
  | .vnone => false
  | .vaddr _ _ => true

/-- One transcript entry. -/
structure Msg where
  role : String
  content : String
deriving DecidableEq, Repr

/-- Assistant reply / user utterance constructors. -/
def amsg (content : String) : Msg := ⟨"assistant", content⟩

def umsg (content : String) : Msg := ⟨"user", content⟩

/-- A finalized ticket row (source lines 393-394). -/
structure Ticket where
  ticket_id : String
  service : String
  city : String
  state : String
  payload : List (String × FieldVal)
  created_at : String
deriving DecidableEq, Repr

/-- The per-conversation mutable state held in `st.session_state`
(source lines 330-338). -/
structure Session where
  city_cfg : CityProfile
  messages : List Msg
  active_intent : Option String
  pending_fields : List String
  filled_fields : List (String × FieldVal)
  ticket_log : List Ticket
  addr_provider : String
deriving DecidableEq, Repr

/-- Python dict assignment `d[k] = v`: update in place, else append. -/
def dictSet (d : List (String × FieldVal)) (k : String) (v : FieldVal) :
    List (String × FieldVal) :=
  match d with
  | [] => [(k, v)]
  | (k', v') :: rest => if k' = k then (k', v) :: rest else (k', v') :: dictSet rest k v

/-- Python dict lookup `d.get(k)`. -/
def dictGet (d : List (String × FieldVal)) (k : String) : Option FieldVal :=
  match d with
  | [] => none
  | (k', v) :: rest => if k' = k then some v else dictGet rest k

/-- Python key membership `k in d`. -/
def dmem (d : List (String × FieldVal)) (k : String) : Bool :=
  (dictGet d k).isSome

/-- External per-turn inputs: the geocoder's reply (if a geocode call is
made this turn), and the clock/random values `make_ticket` and
`finalize_case` would read. -/
structure Env where
  geo : Option GeoRecord
  date : String
  rand : String
  created_at : String
deriving DecidableEq, Repr

/-- `make_ticket(prefix)` (source lines 28-29), with the date and random
suffix supplied by the environment. -/
def make_ticket (pfx : String) (env : Env) : String :=
  pfx ++ "-" ++ env.date ++ "-" ++ env.rand

/-- `show_menu()` (source lines 343-349). -/
def show_menu (cfg : CityProfile) : String :=
  "I can help with:\n"
    ++ String.intercalate "\n"
        (cfg.services.map (fun kv => "- **" ++ kv.1 ++ "** — " ++ kv.2.description))
    ++ "\n\n*Tip:* If the road is a **state highway** (I-40, US-64, NC-55, etc.), "
    ++ "potholes/streetlights are often handled by **NCDOT**. We can still log your request and "
    ++ "include the right link."
    ++ "\n\nTry: \x27Report a pothole\x27, \x27Trash pickup day\x27, \x27Streetlight out\x27, \x27Stray dog\x27, or \x27General info\x27."

/-- The recomputed outstanding-field list (source lines 353-356): required
fields for the intent (hardcoded list, in order) not yet filled, then the
city profile's service fields that are neither required nor filled. -/
def orderedFields (intent : String) (svc : SvcDesc)
    (filled : List (String × FieldVal)) : List String :=
  ((alist REQUIRED_FIELDS intent).getD []).filter (fun f => !(dmem filled f))
    ++ svc.fields.filter (fun f =>
        !(((alist REQUIRED_FIELDS intent).getD []).contains f) && !(dmem filled f))

/-- The prompt for the head of the recomputed list (source line 358):
canned question, or the generic `Provide <field>:` fallback, or `none`
when the list is empty. -/
def promptFor : List String → Option String
  | [] => none
  | f :: _ => some ((alist FIELD_QUESTIONS f).getD ("Provide " ++ f ++ ":"))

/-- `next_slot_question()` (source lines 351-358): recompute the pending
field list, store it back on the session, and produce the next prompt.
Returns `none` when the Python code would raise
(`city_cfg["services"][intent]` missing); otherwise the updated session
and the prompt (or `none` when the form is complete). -/
def next_slot_question (s : Session) : Option (Session × Option String) :=
  if ¬ pyTruthyOpt s.active_intent then some (s, none)
  else
    match s.active_intent with
    | none => some (s, none)
    | some intent =>
      match alist s.city_cfg.services intent with
      | none => none
      | some svc =>
        some ({ s with pending_fields := orderedFields intent svc s.filled_fields },
              promptFor (orderedFields intent svc s.filled_fields))

/-- `maybe_ncdot_note(address)` (source lines 360-366). -/
def maybe_ncdot_note (address : String) : Option String :=
  let a := normalize address
  if ([" i-", " us-", " nc-"].any (fun tag => containsSub a tag))
      || (["i-40", "i 40", "nc 55", "nc-55", "us 1", "us-1"].any (fun hwy => containsSub a hwy)) then
    some ("FYI: This looks like it may be on a **state-maintained road**. "
      ++ "For state roads, the maintainer is often **NCDOT**. We’ll still file your note and "
      ++ "include the NCDOT contact link in the ticket.")
  else none

/-- `lookup_trash_day(address, zip_code)` (source lines 368-375); the ZIP
argument is unused by the source, the street-keyword rules are checked in
dict order. -/
def lookup_trash_day (address : String) : Option String :=
  let a := normalize address
  if containsSub a "davis dr" then some "Wednesday"
  else if containsSub a "davis drive" then some "Wednesday"
  else if containsSub a "morrisville parkway" then some "Thursday"
  else if containsSub a "chapel hill rd" then some "Thursday"
  else if containsSub a "nc 55" then some "Monday"
  else if containsSub a "nc-55" then some "Monday"
  else none

/-- Python repr of an optional string (used only to render message text). -/
def optRepr : Option String → String
  | none => "None"
  | some s => "\x27" ++ s ++ "\x27"

/-- Python repr of an `address_verified` dict value. -/
def reprGeo (g : GeoRecord) (provider : String) : String :=
  "\x7b\x27matched\x27: " ++ optRepr g.matched ++ ", \x27city\x27: " ++ optRepr g.city
    ++ ", \x27state\x27: " ++ optRepr g.state ++ ", \x27zip\x27: " ++ optRepr g.zip
    ++ ", \x27lat\x27: " ++ (g.lat.getD "None") ++ ", \x27lon\x27: " ++ (g.lon.getD "None")
    ++ ", \x27provider\x27: \x27" ++ provider ++ "\x27\x7d"

/-- Python repr of a stored field value (message rendering only). -/
def reprFV : FieldVal → String
  | .vs s => "\x27" ++ s ++ "\x27"
  | .vnone => "None"
  | .vaddr g p => reprGeo g p

/-- Python repr of the payload dict, interpolated into the confirmation
message at source line 399. -/
def reprPayload (p : List (String × FieldVal)) : String :=
  "\x7b" ++ String.intercalate ", "
      (p.map (fun kv => "\x27" ++ kv.1 ++ "\x27: " ++ reprFV kv.2)) ++ "\x7d"

/-- `intent.replace('_', ' ')`. -/
def underscoreSpace (s : String) : String :=
  ⟨s.data.map (fun c => if c = '_' then ' ' else c)⟩

/-- `payload.get("street_address") or payload.get("nearest_address") or ""`
(source line 385): first truthy value, with Python `or` semantics; returns
`none` when the chosen value is not a string (the Python code would then
crash inside `normalize`). -/
def finalAddr (p : List (String × FieldVal)) : Option String :=
  let pick : FieldVal :=
    match dictGet p "street_address" with
    | some v =>
      if fvTruthy v then v
      else match dictGet p "nearest_address" with
           | some w => if fvTruthy w then w else .vs ""
           | none => .vs ""
    | none =>
      match dictGet p "nearest_address" with
      | some w => if fvTruthy w then w else .vs ""
      | none => .vs ""
  match pick with
  | .vs a => some a
  | _ => none

/-- The ticket-id prefix `(meta["city"][:2] or "NC").upper()`
(source line 381). -/
def ticketPfx (city : String) : String :=
  String.toUpper (if (city.data.take 2).isEmpty then "NC" else ⟨city.data.take 2⟩)

/-- The state-highway advisory step of `finalize_case`
(source lines 384-387): for pothole/streetlight intents, inspect the
address-bearing field and attach the NCDOT note to the payload when it
matches.  `none` models the paths where Python would raise. -/
def notePayload (intent : String) (p : List (String × FieldVal)) :
    Option (List (String × FieldVal)) :=
  if intent = "pothole" ∨ intent = "streetlight" then
    match finalAddr p with
    | none => none
    | some addr =>
      match maybe_ncdot_note addr with
      | some note => some (dictSet p "note" (.vs note))
      | none => some p
  else some p

/-- The trash-day estimate step of `finalize_case` (source lines 389-391). -/
def trashPayload (intent : String) (p : List (String × FieldVal)) :
    Option (List (String × FieldVal)) :=
  if intent = "trash_schedule" then
    match (dictGet p "street_address").getD (.vs "") with
    | .vs a =>
      match lookup_trash_day a with
      | some d => some (dictSet p "estimated_pickup_day" (.vs d))
      | none => some p
    | _ => none
  else some p

/-- The confirmation message of `finalize_case` (source lines 397-403). -/
def finalizeMsg (intent tid : String) (cfg : CityProfile) (svc : SvcDesc)
    (payload : List (String × FieldVal)) : String :=
  let m0 := "✅ **Submitted** your *" ++ underscoreSpace intent ++ "* request.\n\n"
    ++ "- Ticket ID: **" ++ tid ++ "**\n- City: **" ++ cfg.city ++ ", "
    ++ cfg.state ++ "**\n"
    ++ "- Intake fields: `" ++ reprPayload payload ++ "`\n- Reference: "
    ++ svc.link ++ "\n"
  let m1 := match svc.sla_days with
    | some n => m0 ++ "- Estimated resolution target: **~" ++ toString n
        ++ " business days**\n"
    | none => m0
  let m2 :=
    if intent = "trash_schedule"
        ∧ (match dictGet payload "estimated_pickup_day" with
           | some v => fvTruthy v
           | none => false) = true then
      m1 ++ "- **Estimated pickup day:** "
        ++ (match dictGet payload "estimated_pickup_day" with
            | some (.vs d) => d
            | _ => "") ++ "\n"
    else m1
  m2 ++ "\nAnything else I can do? Type `menu`."

/-- `finalize_case()` (source lines 377-403): build the ticket row, append
it to the ticket log (the `db_save` side effect writes the same row to the
external store), and produce the confirmation message.  `none` models the
code paths where Python would raise. -/
def finalize_case (env : Env) (s : Session) : Option (Session × String) :=
  match s.active_intent with
  | none => none
  | some intent =>
    match alist s.city_cfg.services intent with
    | none => none
    | some svc =>
      match notePayload intent s.filled_fields with
      | none => none
      | some payload1 =>
        match trashPayload intent payload1 with
        | none => none
        | some payload =>
          some ({ s with ticket_log := s.ticket_log
                    ++ [⟨make_ticket (ticketPfx s.city_cfg.city) env, intent,
                         s.city_cfg.city, s.city_cfg.state, payload, env.created_at⟩] },
                finalizeMsg intent (make_ticket (ticketPfx s.city_cfg.city) env)
                  s.city_cfg svc payload)

/-- Provider display label (source lines 448-449). -/
def prov_label (p : String) : String :=
  if p = "Census (free)" then "Census"
  else if p = "OpenStreetMap (Nominatim)" then "Nominatim"
  else if p = "Google (Geocoding)" then "Google"
  else p

/-- The 📍 standardized-address confirmation (source lines 456-459).
`None` renders as Python would print it; coordinates are the display
strings carried in the record. -/
def geoMsg (lbl : String) (g : GeoRecord) : String :=
  "📍 *(via " ++ lbl ++ ")* standardized to **" ++ g.matched.getD "None"
    ++ "** (lat " ++ g.lat.getD "None" ++ ", lon " ++ g.lon.getD "None" ++ ")."

/-- The 🔁 city-switch notification (source lines 467-468). -/
def switchMsg (city : String) : String :=
  "🔁 Detected **" ++ city ++ ", NC** — switched to that city’s services."

/-- The ⚠️ geocode-failure warning (source lines 470-471). -/
def geoFailMsg : String :=
  "⚠️ I couldn’t verify that address. I’ll continue, but you can re-enter it or use the Address Helper."

/-- The ZIP re-prompt (source line 436). -/
def zipRepromptMsg : String :=
  "Please enter a 5-digit ZIP (e.g., 27560) or say `skip`."

/-- The `reset` confirmation (source line 417). -/
def resetMsg : String := "✅ Reset. Type `menu` to start again."

/-- The `cancel` confirmation (source line 428). -/
def cancelMsg : String := "Canceled. Type `menu` for options."

/-- The unknown-intent fallback (source lines 514-515). -/
def unknownMsg : String :=
  "I’m not sure I understood. Type `menu`, or try \x27Report a pothole\x27, \x27Trash pickup day\x27, or \x27Streetlight out\x27."

/-- Clear the form state and append one confirmation reply — the common
effect of the `reset` (source lines 413-418) and `cancel`
(source lines 424-429) branches. -/
def clearedWith (s : Session) (confirm : String) : Session :=
  { s with active_intent := none, pending_fields := [], filled_fields := [],
           messages := s.messages ++ [amsg confirm] }

/-- The resolved city as the dispatcher canonicalizes it
(source line 462): `(geo.get("city") or "").title()`. -/
def detectedCity (g : GeoRecord) : String := titlecase (g.city.getD "")

/-- The city-switch condition of source lines 464-465: resolved state is
North Carolina, resolved (title-cased) city is non-empty, differs from the
session's current city, and is a key of the catalog. -/
def geoSwitchCond (g : GeoRecord) (curCity : String) : Prop :=
  (g.state = some "NC" ∨ g.state = some "North Carolina")
    ∧ detectedCity g ≠ "" ∧ detectedCity g ≠ curCity
    ∧ (alist NC_JURIS_CONFIG (detectedCity g)).isSome = true

instance (g : GeoRecord) (c : String) : Decidable (geoSwitchCond g c) := by
  unfold geoSwitchCond; infer_instance

/-- The geocoding block of the dispatcher (source lines 444-471): when the
field just answered is an address field and the value is non-empty, store
the `address_verified` record and emit the confirmation, then switch the
city profile (with the 🔁 notification) when `geoSwitchCond` holds; on
provider failure emit the non-blocking warning only.  Each branch below
is the composite of the sequential `st.session_state` updates the source
performs on that path. -/
def geoStep (env : Env) (s : Session) (field val : String) : Session :=
  if (field = "street_address" ∨ field = "nearest_address") ∧ val ≠ "" then
    match env.geo with
    | some g =>
      if geoSwitchCond g s.city_cfg.city then
        { s with
          filled_fields := dictSet s.filled_fields "address_verified"
            (.vaddr g (prov_label s.addr_provider)),
          city_cfg := make_city_profile (detectedCity g) "North Carolina",
          messages := s.messages ++ [amsg (geoMsg (prov_label s.addr_provider) g),
                                     amsg (switchMsg (detectedCity g))] }
      else
        { s with
          filled_fields := dictSet s.filled_fields "address_verified"
            (.vaddr g (prov_label s.addr_provider)),
          messages := s.messages ++ [amsg (geoMsg (prov_label s.addr_provider) g)] }
    | none => { s with messages := s.messages ++ [amsg geoFailMsg] }
  else s

/-- Store the answer for the field being asked (source lines 439-442):
Python `None` when the normalized input is `skip` and the field is
optional-marked, the trimmed raw text otherwise. -/
def storeAnswer (s : Session) (field tnorm val : String) : Session :=
  { s with filled_fields :=
      (if tnorm = "skip" ∧ endsOptional field = true then
        dictSet s.filled_fields field FieldVal.vnone
      else dictSet s.filled_fields field (.vs val)) }

/-- The tail of the mid-form turn (source lines 473-482): recompute the
next prompt; ask it, or — when the form is complete — finalize and clear
the form state. -/
def afterSlot (env : Env) (s2 : Session) : Option Session :=
  match next_slot_question s2 with
  | none => none
  | some (s3, some q) => some { s3 with messages := s3.messages ++ [amsg q] }
  | some (s3, none) =>
    match finalize_case env s3 with
    | none => none
    | some (s4, m) =>
      some { s4 with active_intent := none, pending_fields := [],
                     filled_fields := [],
                     messages := s4.messages ++ [amsg m] }

/-- The mid-form answer-consumption path of the dispatcher
(source lines 431-482), entered once the reserved keywords have been ruled
out: ZIP validation, storing the answer, the geocoding side effects, then
recompute the next prompt or finalize. -/
def midformAnswer (env : Env) (s : Session) (text tnorm : String) : Option Session :=
  match s.pending_fields with
  | [] => none
  | field :: _ =>
    if field = "zip_optional" ∧ pyStrip text ≠ "" ∧ ¬ (zipMatch (pyStrip text) = true) then
      some { s with messages := s.messages ++ [amsg zipRepromptMsg] }
    else
      afterSlot env
        (geoStep env (storeAnswer s field tnorm (pyStrip text)) field (pyStrip text))

/-- The city/state parse of the adapt-city branch (source lines 490-496):
best-effort substring split with placeholder fallback. -/
def parseAdapt (t : String) : String × String :=
  if containsSub t "name is" ∧ containsSub t "in the state" then
    (titlecase (stripPunct (beforeFirst (afterFirst t "name is") "in the state")),
     titlecase (stripPunct (afterFirst t "in the state")))
  else ("Your City", "North Carolina")

/-- `active_intent = intent; filled_fields = {}` (source lines 502-503). -/
def withIntent (s : Session) (intent : String) : Session :=
  { s with active_intent := some intent, filled_fields := [] }

/-- The service-key branch of the fresh-intent path
(source lines 501-512): set the active intent, clear the filled fields,
compute the first prompt; with no outstanding fields reply with the
service description instead (the active intent is NOT cleared there). -/
def startService (s : Session) (intent : String) : Option Session :=
  match next_slot_question (withIntent s intent) with
  | none => none
  | some (s2, some q) =>
    some { s2 with messages := s2.messages
      ++ [amsg ("Okay, let\x27s file a **" ++ underscoreSpace intent ++ "** request.\n\n" ++ q)] }
  | some (s2, none) =>
    match alist s2.city_cfg.services intent with
    | none => none
    | some svc =>
      some { s2 with messages := s2.messages
        ++ [amsg ("**" ++ titlecase (underscoreSpace intent) ++ "** — " ++ svc.description
              ++ "\n\nMore info: " ++ svc.link)] }

/-- The fresh-intent path of the dispatcher (source lines 484-515), with
the classification result passed in. -/
def freshIntentWith (s : Session) (tnorm intent : String) : Option Session :=
  if intent = "menu" then
    some { s with messages := s.messages ++ [amsg (show_menu s.city_cfg)] }
  else if intent = "adapt_city" then
    some { s with
      city_cfg := make_city_profile (parseAdapt tnorm).1 (parseAdapt tnorm).2,
      messages := s.messages
        ++ [amsg ("👍 Adapted to **" ++ (parseAdapt tnorm).1 ++ ", " ++ (parseAdapt tnorm).2
              ++ "**. Type `menu`.")] }
  else if (alist s.city_cfg.services intent).isSome then
    startService s intent
  else
    some { s with messages := s.messages ++ [amsg unknownMsg] }

/-- The fresh-intent path (source lines 484-515): classify, then branch. -/
def freshIntent (s : Session) (text tnorm : String) : Option Session :=
  freshIntentWith s tnorm (detect_intent text)

/-- Append the incoming user utterance to the transcript
(source line 409). -/
def addUser (s : Session) (text : String) : Session :=
  { s with messages := s.messages ++ [umsg text] }

/-- The dispatcher body after the user message is recorded
(source lines 410-515). -/
def dispatch (env : Env) (s : Session) (text tnorm : String) : Option Session :=
  if tnorm = "reset" ∨ tnorm = "restart" ∨ tnorm = "start over" then
    some (clearedWith s resetMsg)
  else if pyTruthyOpt s.active_intent = true ∧ s.pending_fields ≠ [] then
    if tnorm = "menu" then
      some { s with messages := s.messages ++ [amsg (show_menu s.city_cfg)] }
    else if tnorm = "cancel" then
      some (clearedWith s cancelMsg)
    else midformAnswer env s text tnorm
  else freshIntent s text tnorm

/-- `push_user_and_process(text)` (source lines 408-515): append the user
message, honour the global reset keywords, then either handle the pending
form (reserved keywords `menu`/`cancel`, else consume the answer) or
classify a fresh intent.  Returns `none` exactly where the Python code
would raise an uncaught exception. -/
def push_user_and_process (env : Env) (s0 : Session) (text : String) : Option Session :=
  dispatch env (addUser s0 text) text (normalize text)

/-! ## Heap model of the profile copy discipline (source lines 199-202)

`make_city_profile` builds `services = {k: dict(v) for k, v in base.items()}`:
a fresh descriptor dict per service, whose entries — including the
*reference* to the nested `fields` list — are copied from the template.
The value-level `make_city_profile` above captures the observable content;
this model captures the object identities, so claims about mutation
leakage can be settled.  Lists and descriptor dicts live in a heap indexed
by allocation order; strings and numbers are immutable in Python and stay
inline. -/

/-- A descriptor *object*: scalar entries inline, the mutable `fields`
list by reference. -/
structure DescObj where
  description : String
  fieldsRef : Nat
  link : String
  sla_days : Option Nat
deriving DecidableEq, Repr

/-- The heap: addresses are indices into the allocation lists. -/
structure Heap where
  lists : List (List String)
  descs : List DescObj
deriving DecidableEq, Repr

def emptyHeap : Heap := ⟨[], []⟩

/-- A city's services map with descriptors by reference. -/
abbrev ServicesH := List (String × Nat)

def readList (h : Heap) (a : Nat) : List String := h.lists.getD a []

def writeList (h : Heap) (a : Nat) (l : List String) : Heap :=
  { h with lists := h.lists.set a l }

def readDesc (h : Heap) (a : Nat) : DescObj := h.descs.getD a ⟨"", 0, "", none⟩

def writeDesc (h : Heap) (a : Nat) (o : DescObj) : Heap :=
  { h with descs := h.descs.set a o }

/-- Allocate a catalog template entry: one fresh list object and one fresh
descriptor object per service (the literal dicts of `NC_JURIS_CONFIG`). -/
def allocServices (h : Heap) : Services → Heap × ServicesH
  | [] => (h, [])
  | (k, d) :: rest =>
    let la := h.lists.length
    let h1 : Heap := { h with lists := h.lists ++ [d.fields] }
    let da := h1.descs.length
    let h2 : Heap := { h1 with descs := h1.descs ++ [⟨d.description, la, d.link, d.sla_days⟩] }
    let r := allocServices h2 rest
    (r.1, (k, da) :: r.2)

/-- The `{k: dict(v) for k, v in base.items()}` copy of
`make_city_profile`: a fresh descriptor object per service holding the
*same entries* as the template's — in particular the same `fieldsRef`. -/
def copyServices (h : Heap) : ServicesH → Heap × ServicesH
  | [] => (h, [])
  | (k, da) :: rest =>
    let da' := h.descs.length
    let h1 : Heap := { h with descs := h.descs ++ [readDesc h da] }
    let r := copyServices h1 rest
    (r.1, (k, da') :: r.2)

/-- Dereference a descriptor down to its observable `SvcDesc` value. -/
def viewDesc (h : Heap) (a : Nat) : SvcDesc :=
  let o := readDesc h a
  ⟨o.description, readList h o.fieldsRef, o.link, o.sla_days⟩

/-! ## Helper lemmas about the dict operations -/

theorem dictGet_dictSet_self (d : List (String × FieldVal)) (k : String) (v : FieldVal) :
    dictGet (dictSet d k v) k = some v := by
  induction d with
  | nil => simp [dictSet, dictGet]
  | cons p rest ih =>
    obtain ⟨k0, v0⟩ := p
    by_cases h : k0 = k
    · simp [dictSet, dictGet, h]
    · simp [dictSet, dictGet, h, ih]

theorem dictGet_dictSet_ne (d : List (String × FieldVal)) (k x : String) (v : FieldVal)
    (h : x ≠ k) : dictGet (dictSet d k v) x = dictGet d x := by
  induction d with
  | nil => simp [dictSet, dictGet, Ne.symm h]
  | cons p rest ih =>
    obtain ⟨k0, v0⟩ := p
    by_cases hk : k0 = k
    · subst hk
      simp [dictSet, dictGet, Ne.symm h]
    · simp [dictSet, dictGet, hk, ih]

theorem dmem_dictSet (d : List (String × FieldVal)) (k x : String) (v : FieldVal) :
    dmem (dictSet d k v) x = (x == k || dmem d x) := by
  by_cases h : x = k
  · subst h; simp [dmem, dictGet_dictSet_self]
  · simp [dmem, dictGet_dictSet_ne d k x v h, h]

/-! ## Frame lemmas about the dispatcher's components -/

theorem next_slot_question_frame (s s' : Session) (q : Option String)
    (h : next_slot_question s = some (s', q)) :
    s'.city_cfg = s.city_cfg ∧ s'.messages = s.messages
      ∧ s'.active_intent = s.active_intent ∧ s'.filled_fields = s.filled_fields
      ∧ s'.ticket_log = s.ticket_log ∧ s'.addr_provider = s.addr_provider := by
  rw [next_slot_question] at h
  split at h
  · obtain ⟨rfl, -⟩ : s = s' ∧ none = q := by simpa using h
    exact ⟨rfl, rfl, rfl, rfl, rfl, rfl⟩
  · split at h
    · obtain ⟨rfl, -⟩ : s = s' ∧ none = q := by simpa using h
      exact ⟨rfl, rfl, rfl, rfl, rfl, rfl⟩
    · split at h
      · exact absurd h (by simp)
      · obtain ⟨rfl, -⟩ := by simpa using h
        exact ⟨rfl, rfl, rfl, rfl, rfl, rfl⟩

theorem next_slot_question_eq (s : Session) (i : String) (svc : SvcDesc)
    (hA : s.active_intent = some i) (hne : i ≠ "")
    (hsvc : alist s.city_cfg.services i = some svc) :
    next_slot_question s
      = some ({ s with pending_fields := orderedFields i svc s.filled_fields },
              promptFor (orderedFields i svc s.filled_fields)) := by
  rw [next_slot_question, if_neg (by simp [hA, pyTruthyOpt, hne]), hA]
  dsimp only
  rw [hsvc]

theorem geoStep_frame (env : Env) (s : Session) (field val : String) :
    (geoStep env s field val).active_intent = s.active_intent
      ∧ (geoStep env s field val).pending_fields = s.pending_fields
      ∧ (geoStep env s field val).ticket_log = s.ticket_log
      ∧ (geoStep env s field val).addr_provider = s.addr_provider := by
  rw [geoStep]
  split
  · cases env.geo with
    | none => exact ⟨rfl, rfl, rfl, rfl⟩
    | some g =>
      dsimp only
      split <;> exact ⟨rfl, rfl, rfl, rfl⟩
  · exact ⟨rfl, rfl, rfl, rfl⟩

theorem geoStep_filled_ne (env : Env) (s : Session) (field val x : String)
    (hx : x ≠ "address_verified") :
    dictGet (geoStep env s field val).filled_fields x = dictGet s.filled_fields x := by
  rw [geoStep]
  split
  · cases env.geo with
    | none => rfl
    | some g =>
      dsimp only
      split <;> exact dictGet_dictSet_ne _ _ _ _ hx
  · rfl

theorem notePayload_get_ne (intent : String) (p p1 : List (String × FieldVal))
    (h : notePayload intent p = some p1) (x : String) (hx : x ≠ "note") :
    dictGet p1 x = dictGet p x := by
  rw [notePayload] at h
  split at h
  · split at h
    · exact absurd h (by simp)
    · split at h
      · obtain rfl := by simpa using h
        exact dictGet_dictSet_ne _ _ _ _ hx
      · obtain rfl := by simpa using h
        rfl
  · obtain rfl := by simpa using h
    rfl

theorem trashPayload_get_ne (intent : String) (p p1 : List (String × FieldVal))
    (h : trashPayload intent p = some p1) (x : String)
    (hx : x ≠ "estimated_pickup_day") :
    dictGet p1 x = dictGet p x := by
  rw [trashPayload] at h
  split at h
  · split at h
    · split at h
      · obtain rfl := by simpa using h
        exact dictGet_dictSet_ne _ _ _ _ hx
      · obtain rfl := by simpa using h
        rfl
    · exact absurd h (by simp)
  · obtain rfl := by simpa using h
    rfl

theorem finalize_case_spec (env : Env) (s s' : Session) (m : String)
    (h : finalize_case env s = some (s', m)) :
    s'.city_cfg = s.city_cfg ∧ s'.messages = s.messages
      ∧ s'.active_intent = s.active_intent ∧ s'.pending_fields = s.pending_fields
      ∧ s'.filled_fields = s.filled_fields ∧ s'.addr_provider = s.addr_provider
      ∧ ∃ t : Ticket, s'.ticket_log = s.ticket_log ++ [t]
          ∧ some t.service = s.active_intent
          ∧ ∀ x, x ≠ "note" → x ≠ "estimated_pickup_day" →
              dictGet t.payload x = dictGet s.filled_fields x := by
  rw [finalize_case] at h
  split at h
  · exact absurd h (by simp)
  case _ intent hin =>
    split at h
    · exact absurd h (by simp)
    case _ svc hsvc =>
      split at h
      · exact absurd h (by simp)
      case _ payload1 hp1 =>
        split at h
        · exact absurd h (by simp)
        case _ payload hp2 =>
          obtain ⟨rfl, -⟩ := by simpa using h
          refine ⟨rfl, rfl, rfl, rfl, rfl, rfl, _, rfl, by rw [hin], ?_⟩
          intro x hx1 hx2
          rw [trashPayload_get_ne intent payload1 payload hp2 x hx2,
              notePayload_get_ne intent s.filled_fields payload1 hp1 x hx1]

theorem afterSlot_cases (env : Env) (s2 s' : Session) (h : afterSlot env s2 = some s') :
    (∃ s3 q, next_slot_question s2 = some (s3, some q)
       ∧ s' = { s3 with messages := s3.messages ++ [amsg q] })
    ∨ (∃ s3 s4 m, next_slot_question s2 = some (s3, none)
       ∧ finalize_case env s3 = some (s4, m)
       ∧ s' = { s4 with active_intent := none, pending_fields := [],
                        filled_fields := [], messages := s4.messages ++ [amsg m] }) := by
  rw [afterSlot] at h
  split at h
  · exact absurd h (by simp)
  case _ s3 q heq =>
    obtain rfl := by simpa using h
    exact Or.inl ⟨s3, q, heq, rfl⟩
  case _ s3 heq =>
    split at h
    · exact absurd h (by simp)
    case _ s4 m hf =>
      obtain rfl := by simpa using h
      exact Or.inr ⟨s3, s4, m, heq, hf, rfl⟩

theorem midformAnswer_preserves_intent (env : Env) (s : Session) (text tnorm : String)
    (s' : Session) (h : midformAnswer env s text tnorm = some s') :
    (s'.active_intent = s.active_intent ∧ s'.ticket_log = s.ticket_log)
    ∨ (s'.active_intent = none
        ∧ ∃ t : Ticket, s'.ticket_log = s.ticket_log ++ [t]
            ∧ some t.service = s.active_intent) := by
  rw [midformAnswer] at h
  split at h
  · exact absurd h (by simp)
  case _ field rest heq =>
    split at h
    · obtain rfl := by simpa using h
      exact Or.inl ⟨rfl, rfl⟩
    · have hsa : (storeAnswer s field tnorm (pyStrip text)).active_intent = s.active_intent
          ∧ (storeAnswer s field tnorm (pyStrip text)).ticket_log = s.ticket_log := by
        rw [storeAnswer]; split <;> exact ⟨rfl, rfl⟩
      have hg := geoStep_frame env (storeAnswer s field tnorm (pyStrip text)) field (pyStrip text)
      rcases afterSlot_cases env _ s' h with ⟨s3, q, hn, rfl⟩ | ⟨s3, s4, m, hn, hf, rfl⟩
      · obtain ⟨-, -, hai, -, htk, -⟩ := next_slot_question_frame _ s3 (some q) hn
        refine Or.inl ⟨?_, ?_⟩
        · show s3.active_intent = s.active_intent
          rw [hai, hg.1, hsa.1]
        · show s3.ticket_log = s.ticket_log
          rw [htk, hg.2.2.1, hsa.2]
      · obtain ⟨-, -, hai, -, -, -, t, htk4, hsv, -⟩ := finalize_case_spec env s3 s4 m hf
        obtain ⟨-, -, hai3, -, htk3, -⟩ := next_slot_question_frame _ s3 none hn
        refine Or.inr ⟨rfl, t, ?_, ?_⟩
        · show s4.ticket_log = s.ticket_log ++ [t]
          rw [htk4, htk3, hg.2.2.1, hsa.2]
        · rw [hsv, hai3, hg.1, hsa.1]

theorem midformAnswer_stores (env : Env) (s : Session) (text tnorm : String)
    (field : String) (rest : List String)
    (hpend : s.pending_fields = field :: rest)
    (hzip : ¬(field = "zip_optional" ∧ pyStrip text ≠ "" ∧ ¬(zipMatch (pyStrip text) = true)))
    (hskip : ¬(tnorm = "skip" ∧ endsOptional field = true))
    (hav : field ≠ "address_verified") (hnote : field ≠ "note")
    (hest : field ≠ "estimated_pickup_day")
    (s' : Session) (h : midformAnswer env s text tnorm = some s') :
    dictGet s'.filled_fields field = some (.vs (pyStrip text))
    ∨ (s'.filled_fields = [] ∧ ∃ t : Ticket, s'.ticket_log = s.ticket_log ++ [t]
         ∧ dictGet t.payload field = some (.vs (pyStrip text))) := by
  rw [midformAnswer, hpend] at h
  dsimp only at h
  rw [if_neg hzip] at h
  have hsa : (storeAnswer s field tnorm (pyStrip text)).filled_fields
      = dictSet s.filled_fields field (.vs (pyStrip text)) := by
    rw [storeAnswer, if_neg hskip]
  have hsa2 : (storeAnswer s field tnorm (pyStrip text)).ticket_log = s.ticket_log := rfl
  have hg2 : dictGet (geoStep env (storeAnswer s field tnorm (pyStrip text)) field
        (pyStrip text)).filled_fields field
      = some (.vs (pyStrip text)) := by
    rw [geoStep_filled_ne _ _ _ _ _ hav, hsa, dictGet_dictSet_self]
  have hgt : (geoStep env (storeAnswer s field tnorm (pyStrip text)) field
      (pyStrip text)).ticket_log = s.ticket_log := by
    rw [(geoStep_frame env _ field (pyStrip text)).2.2.1, hsa2]
  rcases afterSlot_cases env _ s' h with ⟨s3, q, hn, rfl⟩ | ⟨s3, s4, m, hn, hf, rfl⟩
  · obtain ⟨-, -, -, hfl, -, -⟩ := next_slot_question_frame _ s3 (some q) hn
    refine Or.inl ?_
    show dictGet s3.filled_fields field = _
    rw [hfl, hg2]
  · obtain ⟨-, -, -, hfl3, -, -⟩ := next_slot_question_frame _ s3 none hn
    obtain ⟨-, -, -, -, -, -, t, htk4, -, hpay⟩ := finalize_case_spec env s3 s4 m hf
    obtain ⟨-, -, -, -, htk3, -⟩ := next_slot_question_frame _ s3 none hn
    refine Or.inr ⟨rfl, t, ?_, ?_⟩
    · show s4.ticket_log = s.ticket_log ++ [t]
      rw [htk4, htk3, hgt]
    · rw [hpay field hnote hest, hfl3, hg2]

theorem dispatch_midform (env : Env) (s : Session) (text tnorm : String)
    (hres : ¬(tnorm = "reset" ∨ tnorm = "restart" ∨ tnorm = "start over"))
    (hA : pyTruthyOpt s.active_intent = true) (hP : s.pending_fields ≠ [])
    (hm : tnorm ≠ "menu") (hc : tnorm ≠ "cancel") :
    dispatch env s text tnorm = midformAnswer env s text tnorm := by
  rw [dispatch, if_neg hres, if_pos ⟨hA, hP⟩, if_neg hm, if_neg hc]

/-! ## Concrete fixtures used by the witnesses and counterexamples -/

/-- A turn environment in which no geocoding call succeeds. -/
def envNoGeo : Env := ⟨none, "250101", "1234", "2025-01-01T00:00:00"⟩

/-- A mid-form session: pothole form in Morrisville, nothing filled yet. -/
def potholeSess : Session :=
  ⟨make_city_profile "Morrisville" "North Carolina", [], some "pothole",
   ["street_address", "description", "photo_url_optional"], [], [], "Census (free)"⟩

/-- A mid-form session with history: streetlight form in Raleigh with one
field filled, one prior ticket and a non-empty transcript. -/
def streetlightSess : Session :=
  ⟨make_city_profile "Raleigh" "North Carolina",
   [umsg "streetlight out", amsg "What is the nearest address to the light?"],
   some "streetlight", ["nearest_address", "description"],
   [("nearest_address", .vs "10 Glenwood Ave")],
   [⟨"RA-250101-0001", "streetlight", "Raleigh", "North Carolina", [], "t"⟩],
   "Census (free)"⟩

/-- The trash-schedule form stuck at its optional ZIP field. -/
def trashZipSess : Session :=
  ⟨make_city_profile "Morrisville" "North Carolina", [], some "trash_schedule",
   ["zip_optional"], [("street_address", .vs "201 Davis Dr")], [], "Census (free)"⟩

/-! ## Claim C1 -/

/-- The property claim C1 asserts of the dispatcher while a form is in
progress: the reserved control keywords are recognised only by exact
normalized equality (`menu` preserves the whole form state, `cancel` and
the global resets clear it), and any other utterance is routed to the
answer-consumption path — it is never reclassified as a new intent (the
active intent is preserved, or the form completes with a ticket for that
same intent), and away from the validated ZIP field it is stored as the
head field's answer. -/
def C1Prop (env : Env) (s : Session) (text : String) : Prop :=
  ((normalize text = "reset" ∨ normalize text = "restart" ∨ normalize text = "start over") →
      push_user_and_process env s text = some (clearedWith (addUser s text) resetMsg))
  ∧ (normalize text = "menu" →
      push_user_and_process env s text
        = some { s with messages := s.messages ++ [umsg text, amsg (show_menu s.city_cfg)] })
  ∧ (normalize text = "cancel" →
      push_user_and_process env s text = some (clearedWith (addUser s text) cancelMsg))
  ∧ (¬(normalize text = "reset" ∨ normalize text = "restart" ∨ normalize text = "start over") →
     normalize text ≠ "menu" → normalize text ≠ "cancel" →
      push_user_and_process env s text = midformAnswer env (addUser s text) text (normalize text)
      ∧ ∀ s', push_user_and_process env s text = some s' →
          ((s'.active_intent = s.active_intent ∧ s'.ticket_log = s.ticket_log)
           ∨ (s'.active_intent = none ∧ ∃ t : Ticket, s'.ticket_log = s.ticket_log ++ [t]
                ∧ some t.service = s.active_intent))
          ∧ (∀ field rest, s.pending_fields = field :: rest →
              field ≠ "zip_optional" → field ≠ "address_verified" →
              field ≠ "note" → field ≠ "estimated_pickup_day" →
              ¬(normalize text = "skip" ∧ endsOptional field = true) →
              (dictGet s'.filled_fields field = some (.vs (pyStrip text))
               ∨ (s'.filled_fields = [] ∧ ∃ t : Ticket, s'.ticket_log = s.ticket_log ++ [t]
                    ∧ dictGet t.payload field = some (.vs (pyStrip text))))))

/-- C1: while a form is in progress (activeIntent set and pendingFields
non-empty), every incoming utterance is treated as the answer to the head
pending field unless its normalized form exactly equals a reserved control
keyword: `menu` emits the catalog menu and leaves activeIntent,
pendingFields and filledFields unchanged; `cancel` clears them;
`reset`/`restart`/`start over` do the same; any other utterance — in
particular one merely containing a service keyword such as
"report a pothole" — is consumed as the head field's answer and never
reclassified as a new intent. -/
theorem c1_midform_reserved_keyword_policy (env : Env) (s : Session) (text : String)
    (hA : pyTruthyOpt s.active_intent = true) (hP : s.pending_fields ≠ []) :
    C1Prop env s text := by
  have hA' : pyTruthyOpt (addUser s text).active_intent = true := hA
  have hP' : (addUser s text).pending_fields ≠ [] := hP
  refine ⟨?_, ?_, ?_, ?_⟩
  · intro hres
    rw [push_user_and_process, dispatch, if_pos hres]
  · intro hm
    have hres : ¬(normalize text = "reset" ∨ normalize text = "restart"
        ∨ normalize text = "start over") := by simp [hm]
    rw [push_user_and_process, dispatch, if_neg hres, if_pos ⟨hA', hP'⟩, if_pos hm]
    simp [addUser]
  · intro hc
    have hres : ¬(normalize text = "reset" ∨ normalize text = "restart"
        ∨ normalize text = "start over") := by simp [hc]
    have hm : normalize text ≠ "menu" := by simp [hc]
    rw [push_user_and_process, dispatch, if_neg hres, if_pos ⟨hA', hP'⟩, if_neg hm, if_pos hc]
  · intro hres hm hc
    have heq : push_user_and_process env s text
        = midformAnswer env (addUser s text) text (normalize text) := by
      rw [push_user_and_process]
      exact dispatch_midform env (addUser s text) text (normalize text) hres hA' hP' hm hc
    refine ⟨heq, ?_⟩
    intro s' hs'
    rw [heq] at hs'
    refine ⟨midformAnswer_preserves_intent env (addUser s text) text (normalize text) s' hs', ?_⟩
    intro field rest hpend hz hav hn he hskip
    have hzip : ¬(field = "zip_optional" ∧ pyStrip text ≠ ""
        ∧ ¬(zipMatch (pyStrip text) = true)) := fun hcon => hz hcon.1
    exact midformAnswer_stores env (addUser s text) text (normalize text) field rest hpend
      hzip hskip hav hn he s' hs'

theorem c1_witness :
    pyTruthyOpt potholeSess.active_intent = true ∧ potholeSess.pending_fields ≠ []
      ∧ C1Prop envNoGeo potholeSess "report a pothole" :=
  ⟨by decide, by decide,
   c1_midform_reserved_keyword_policy envNoGeo potholeSess "report a pothole"
     (by decide) (by decide)⟩

/-! ## Claim C10 -/

/-- C10: global reset (from any state) and mid-form `cancel` clear exactly
the form state — activeIntent, pendingFields, filledFields — and append
exactly one confirmation reply after the user's transcript entry; the
city profile and the ticket log are unchanged and the prior transcript is
preserved (the full record equality below pins every other component). -/
theorem c10_reset_cancel_frame_effect (env : Env) (s : Session) (text : String) :
    ((normalize text = "reset" ∨ normalize text = "restart" ∨ normalize text = "start over") →
      push_user_and_process env s text
        = some { s with active_intent := none, pending_fields := [], filled_fields := [],
                        messages := s.messages ++ [umsg text, amsg resetMsg] })
    ∧ (pyTruthyOpt s.active_intent = true → s.pending_fields ≠ [] →
       ¬(normalize text = "reset" ∨ normalize text = "restart" ∨ normalize text = "start over") →
       normalize text = "cancel" →
       push_user_and_process env s text
        = some { s with active_intent := none, pending_fields := [], filled_fields := [],
                        messages := s.messages ++ [umsg text, amsg cancelMsg] }) := by
  constructor
  · intro hres
    rw [push_user_and_process, dispatch, if_pos hres]
    simp [clearedWith, addUser]
  · intro hA hP hres hc
    have hA' : pyTruthyOpt (addUser s text).active_intent = true := hA
    have hP' : (addUser s text).pending_fields ≠ [] := hP
    have hm : normalize text ≠ "menu" := by simp [hc]
    rw [push_user_and_process, dispatch, if_neg hres, if_pos ⟨hA', hP'⟩, if_neg hm, if_pos hc]
    simp [clearedWith, addUser]

/-- The cleared session `RESET` should produce from `streetlightSess`. -/
def streetlightAfterReset : Session :=
  { streetlightSess with
      active_intent := none
      pending_fields := []
      filled_fields := []
      messages := streetlightSess.messages ++ [umsg "RESET", amsg resetMsg] }

/-- The cleared session `cancel` should produce from `streetlightSess`. -/
def streetlightAfterCancel : Session :=
  { streetlightSess with
      active_intent := none
      pending_fields := []
      filled_fields := []
      messages := streetlightSess.messages ++ [umsg "cancel", amsg cancelMsg] }

theorem c10_witness :
    (push_user_and_process envNoGeo streetlightSess "RESET" = some streetlightAfterReset)
    ∧ (push_user_and_process envNoGeo streetlightSess "cancel" = some streetlightAfterCancel) :=
  ⟨(c10_reset_cancel_frame_effect envNoGeo streetlightSess "RESET").1 (by decide),
   (c10_reset_cancel_frame_effect envNoGeo streetlightSess "cancel").2
     (by decide) (by decide) (by decide) (by decide)⟩

/-! ## Claim C4 -/

/-- C4 (code bug): in a trash-schedule form waiting on the optional ZIP
field, the skip keyword is NOT accepted: the ZIP validation at source
line 435 fires before the skip branch at line 439 (any non-empty input
that is not five digits is rejected, `skip` included), so the turn stores
nothing and re-prompts — even though both the field's canned question and
the re-prompt itself advertise `skip`.  The first conjunct evaluates the
dispatcher at the failing input; the others exhibit the program's own
texts offering the skip keyword. -/
theorem c4_zip_skip_rejected :
    push_user_and_process envNoGeo trashZipSess "skip"
      = some { trashZipSess with messages := [umsg "skip", amsg zipRepromptMsg] }
    ∧ containsSub zipRepromptMsg "skip" = true
    ∧ alist FIELD_QUESTIONS "zip_optional" = some "What is the ZIP code? (or say \x27skip\x27)"
    ∧ endsOptional "zip_optional" = true := by
  refine ⟨by decide, by decide, by decide, by decide⟩

/-! ## Claim C8 -/

theorem firstIntent_mem (t : String) (l : List (String × List String)) (i : String)
    (h : firstIntent t l = some i) : i ∈ l.map Prod.fst := by
  induction l with
  | nil => simp [firstIntent] at h
  | cons p rest ih =>
    obtain ⟨i0, ks0⟩ := p
    rw [firstIntent] at h
    split at h
    · obtain rfl := by simpa using h
      simp
    · simpa using Or.inr (ih h)

theorem firstIntent_none (t : String) (l : List (String × List String))
    (h : ∀ p ∈ l, contains_any t p.2 = false) : firstIntent t l = none := by
  induction l with
  | nil => rfl
  | cons p rest ih =>
    obtain ⟨i0, ks0⟩ := p
    rw [firstIntent, if_neg]
    · exact ih (fun q hq => h q (List.mem_cons_of_mem _ hq))
    · simpa using h (i0, ks0) (List.mem_cons_self _ _)

theorem firstIntent_at (t : String) (l : List (String × List String)) (n : Nat)
    (i : String) (ks : List String) (hn : l[n]? = some (i, ks))
    (hk : contains_any t ks = true)
    (he : ∀ m i' ks', m < n → l[m]? = some (i', ks') → contains_any t ks' = false) :
    firstIntent t l = some i := by
  induction l generalizing n with
  | nil => simp at hn
  | cons p rest ih =>
    obtain ⟨i0, ks0⟩ := p
    cases n with
    | zero =>
      obtain ⟨rfl, rfl⟩ : i0 = i ∧ ks0 = ks := by simpa using hn
      rw [firstIntent, if_pos hk]
    | succ n =>
      have h0 : contains_any t ks0 = false := he 0 i0 ks0 (Nat.succ_pos n) (by simp)
      rw [firstIntent, if_neg (by simp [h0])]
      exact ih n (by simpa using hn)
        (fun m i' ks' hm hg => he (m + 1) i' ks' (Nat.succ_lt_succ hm) (by simpa using hg))

/-- C8: the intent classifier is total — it always returns one of
`adapt_city`, a service key of the pattern table, `menu` or `unknown` —
and follows the ordered first-match algorithm on the normalized text: the
adapt-city trigger phrase (substring) wins first; otherwise the first
entry of the priority-ordered pattern table any of whose keywords occurs
as a substring wins; otherwise an exact match against the greeting set
yields `menu`; otherwise `unknown`. -/
theorem c8_detect_intent_total_first_match (text : String) :
    (detect_intent text = "adapt_city"
       ∨ detect_intent text ∈ INTENT_PATTERNS.map Prod.fst
       ∨ detect_intent text = "menu" ∨ detect_intent text = "unknown")
    ∧ (containsSub (normalize text) ADAPT_TRIGGER = true →
        detect_intent text = "adapt_city")
    ∧ (containsSub (normalize text) ADAPT_TRIGGER = false →
        ∀ (n : Nat) (i : String) (ks : List String), INTENT_PATTERNS[n]? = some (i, ks) →
          contains_any (normalize text) ks = true →
          (∀ (m : Nat) (i' : String) (ks' : List String), m < n →
            INTENT_PATTERNS[m]? = some (i', ks') →
            contains_any (normalize text) ks' = false) →
          detect_intent text = i)
    ∧ (containsSub (normalize text) ADAPT_TRIGGER = false →
        (∀ p ∈ INTENT_PATTERNS, contains_any (normalize text) p.2 = false) →
        (GREETINGS.contains (normalize text) = true → detect_intent text = "menu")
        ∧ (GREETINGS.contains (normalize text) = false →
            detect_intent text = "unknown")) := by
  refine ⟨?_, ?_, ?_, ?_⟩
  · by_cases hA : containsSub (normalize text) ADAPT_TRIGGER = true
    · exact Or.inl (by rw [detect_intent, if_pos hA])
    · cases hF : firstIntent (normalize text) INTENT_PATTERNS with
      | some i =>
        refine Or.inr (Or.inl ?_)
        rw [detect_intent, if_neg hA, hF]
        exact firstIntent_mem _ _ _ hF
      | none =>
        by_cases hG : GREETINGS.contains (normalize text) = true
        · exact Or.inr (Or.inr (Or.inl (by rw [detect_intent, if_neg hA, hF, if_pos hG])))
        · refine Or.inr (Or.inr (Or.inr ?_))
          rw [detect_intent, if_neg hA, hF, if_neg hG]
  · intro hA
    rw [detect_intent, if_pos hA]
  · intro hA n i ks hn hk he
    rw [detect_intent, if_neg (by simp [hA]), firstIntent_at (normalize text) _ n i ks hn hk he]
  · intro hA hnone
    have hF : firstIntent (normalize text) INTENT_PATTERNS = none :=
      firstIntent_none _ _ hnone
    constructor
    · intro hG
      rw [detect_intent, if_neg (by simp [hA]), hF, if_pos hG]
    · intro hG
      rw [detect_intent, if_neg (by simp [hA]), hF, if_neg (by simpa using hG)]

theorem c8_witness :
    containsSub (normalize "i saw a pothole") ADAPT_TRIGGER = false
    ∧ contains_any (normalize "i saw a pothole")
        ["pothole", "road hole", "asphalt", "road damage", "street crack"] = true
    ∧ detect_intent "i saw a pothole" = "pothole" :=
  ⟨by decide, by decide,
   (c8_detect_intent_total_first_match "i saw a pothole").2.2.1 (by decide) 0 "pothole"
     ["pothole", "road hole", "asphalt", "road damage", "street crack"] (by decide) (by decide)
     (fun m i' ks' hm _ => absurd hm (Nat.not_lt_zero m))⟩

/-! ## Claim C5 -/

/-- The session's active intent after a processed turn, for stating
counterexamples without binders. -/
def activeAfter (o : Option Session) : Option (Option String) :=
  Option.map Session.active_intent o

/-- A fresh Idle session in Morrisville. -/
def idleSess : Session :=
  ⟨make_city_profile "Morrisville" "North Carolina", [], none, [], [], [], "Census (free)"⟩

/-- C5 counterexample: from the Idle session, the zero-field service
`general_info` leaves `active_intent = some "general_info"` — the
source's description branch (lines 508-511) never clears the intent it
just set at line 502, so the session does NOT end the turn with no active
intent as the claim states. -/
theorem c5_counterexample :
    activeAfter (push_user_and_process envNoGeo idleSess "general info")
        = some (some "general_info")
    ∧ some (some "general_info") ≠ (some none : Option (Option String)) :=
  ⟨by decide, by decide⟩

/-- The reply state the description branch produces: description message
appended, `active_intent` left holding the service key, no pending or
filled fields. -/
def descriptionReply (s : Session) (text i : String) (svc : SvcDesc) : Session :=
  { s with
      active_intent := some i
      pending_fields := []
      filled_fields := []
      messages := s.messages ++ [umsg text,
        amsg ("**" ++ titlecase (underscoreSpace i) ++ "** — " ++ svc.description
          ++ "\n\nMore info: " ++ svc.link)] }

/-- C5 (amended): when an Idle session receives an utterance classified
as a service key whose effective field list is empty (no hardcoded
required fields and no catalog service fields), the reply is the
service's description and no multi-turn form is started — `pendingFields`
and `filledFields` are empty, so the next utterance is not treated as a
form answer — but `activeIntent` is left set to the service key rather
than cleared. -/
theorem c5_zero_field_service_keeps_intent (env : Env) (s : Session) (text i : String)
    (svc : SvcDesc)
    (hIdle : s.active_intent = none)
    (hres : ¬(normalize text = "reset" ∨ normalize text = "restart"
        ∨ normalize text = "start over"))
    (hdet : detect_intent text = i)
    (hne : i ≠ "") (hm : i ≠ "menu") (ha : i ≠ "adapt_city")
    (hsvc : alist s.city_cfg.services i = some svc)
    (hreq : (alist REQUIRED_FIELDS i).getD [] = [])
    (hfields : svc.fields = []) :
    push_user_and_process env s text = some (descriptionReply s text i svc) := by
  have hguard : ¬(pyTruthyOpt (addUser s text).active_intent = true
      ∧ (addUser s text).pending_fields ≠ []) := by
    intro hcon
    have h1 : pyTruthyOpt s.active_intent = true := hcon.1
    rw [hIdle] at h1
    exact absurd h1 (by decide)
  rw [push_user_and_process, dispatch, if_neg hres, if_neg hguard, freshIntent]
  have hcfg : (addUser s text).city_cfg = s.city_cfg := rfl
  rw [hdet, freshIntentWith, if_neg hm, if_neg ha, if_pos (by rw [hcfg, hsvc]; rfl)]
  rw [startService]
  have hsvcW : alist (withIntent (addUser s text) i).city_cfg.services i = some svc := hsvc
  rw [next_slot_question_eq (withIntent (addUser s text) i) i svc rfl hne hsvcW]
  have hord : orderedFields i svc (withIntent (addUser s text) i).filled_fields = [] := by
    show orderedFields i svc [] = []
    rw [orderedFields, hreq, hfields]
    rfl
  rw [hord]
  dsimp only [promptFor]
  have hsvcP : alist ({ withIntent (addUser s text) i with pending_fields := ([] : List String) } : Session).city_cfg.services i = some svc := hsvc
  rw [hsvcP]
  simp only [descriptionReply, addUser, withIntent]
  simp [List.append_assoc]

/-- The expected post-turn session for the C5 witness. -/
def idleAfterGeneralInfo : Session :=
  descriptionReply idleSess "general info" "general_info"
    ⟨"General Town information & datasets", [], "https://opendata.townofmorrisville.org", none⟩

theorem c5_witness :
    idleSess.active_intent = none
    ∧ detect_intent "general info" = "general_info"
    ∧ (alist REQUIRED_FIELDS "general_info").getD [] = []
    ∧ push_user_and_process envNoGeo idleSess "general info" = some idleAfterGeneralInfo :=
  ⟨rfl, by decide, by decide,
   c5_zero_field_service_keeps_intent envNoGeo idleSess "general info" "general_info"
     ⟨"General Town information & datasets", [], "https://opendata.townofmorrisville.org", none⟩
     rfl (by decide) (by decide) (by decide) (by decide) (by decide) (by decide)
     (by decide) rfl⟩

/-! ## Claim C7 -/

/-- C7 counterexample: the query `geocode_any` builds for the raw address
"123 Main St" in Morrisville (Census path, the default provider, and the
Nominatim path alike) is the raw text plus the city/state hint; it still
contains the abbreviation "st" and does not contain "street" in any
casing — no abbreviation expansion happens anywhere before the provider
is queried. -/
theorem c7_counterexample :
    geocode_any_query "123 Main St" "Morrisville" "Census (free)" false
        = "123 Main St, Morrisville, North Carolina"
    ∧ geocode_any_query "123 Main St" "Morrisville" "OpenStreetMap (Nominatim)" false
        = "123 Main St, Morrisville, North Carolina"
    ∧ containsSub (normalize "123 Main St, Morrisville, North Carolina") "street" = false
    ∧ containsSub (normalize "123 Main St, Morrisville, North Carolina") " st," = true :=
  ⟨by decide, by decide, by decide, by decide⟩

/-! ## Claims C3 and C6: geocoding side effects of an answered address field -/

theorem geoStep_city_of_some (env : Env) (s : Session) (field val : String) (g : GeoRecord)
    (hc : (field = "street_address" ∨ field = "nearest_address") ∧ val ≠ "")
    (hg : env.geo = some g) :
    (geoSwitchCond g s.city_cfg.city →
       (geoStep env s field val).city_cfg = make_city_profile (detectedCity g) "North Carolina"
       ∧ amsg (switchMsg (detectedCity g)) ∈ (geoStep env s field val).messages)
    ∧ (¬ geoSwitchCond g s.city_cfg.city →
       (geoStep env s field val).city_cfg = s.city_cfg) := by
  rw [geoStep, if_pos hc, hg]
  dsimp only
  by_cases hsw : geoSwitchCond g s.city_cfg.city
  · rw [if_pos hsw]
    exact ⟨fun _ => ⟨rfl, by simp⟩, fun hn => absurd hsw hn⟩
  · rw [if_neg hsw]
    exact ⟨fun hs => absurd hs hsw, fun _ => rfl⟩

/-- C3: when answering an address field makes geocoding succeed with a
resolved (title-cased) city different from the session's current city,
present in the service catalog, with the resolved state matching North
Carolina, the session's city profile is replaced by a freshly adapted
profile for the resolved city and the reply sequence includes the
explicit 🔁 city-switch notification; if any of those conditions fails,
the city profile is unchanged. -/
theorem c3_city_switch (env : Env) (s : Session) (text field : String)
    (rest : List String) (g : GeoRecord)
    (hA : pyTruthyOpt s.active_intent = true)
    (hP : s.pending_fields = field :: rest)
    (hf : field = "street_address" ∨ field = "nearest_address")
    (hres : ¬(normalize text = "reset" ∨ normalize text = "restart"
        ∨ normalize text = "start over"))
    (hm : normalize text ≠ "menu") (hc : normalize text ≠ "cancel")
    (hval : pyStrip text ≠ "")
    (hg : env.geo = some g) :
    ∀ s', push_user_and_process env s text = some s' →
      (geoSwitchCond g s.city_cfg.city →
         s'.city_cfg = make_city_profile (detectedCity g) "North Carolina"
         ∧ amsg (switchMsg (detectedCity g)) ∈ s'.messages)
      ∧ (¬ geoSwitchCond g s.city_cfg.city → s'.city_cfg = s.city_cfg) := by
  intro s' hs'
  have hA' : pyTruthyOpt (addUser s text).active_intent = true := hA
  have hP0 : (addUser s text).pending_fields ≠ [] := by
    show s.pending_fields ≠ []
    rw [hP]; simp
  rw [push_user_and_process,
      dispatch_midform env (addUser s text) text (normalize text) hres hA' hP0 hm hc] at hs'
  have hpend : (addUser s text).pending_fields = field :: rest := hP
  rw [midformAnswer, hpend] at hs'
  dsimp only at hs'
  have hzip : ¬(field = "zip_optional" ∧ pyStrip text ≠ ""
      ∧ ¬(zipMatch (pyStrip text) = true)) := by
    rcases hf with rfl | rfl <;> simp
  rw [if_neg hzip] at hs'
  have hcstep := geoStep_city_of_some env
    (storeAnswer (addUser s text) field (normalize text) (pyStrip text))
    field (pyStrip text) g ⟨hf, hval⟩ hg
  rcases afterSlot_cases env _ s' hs' with ⟨s3, q, hn, rfl⟩ | ⟨s3, s4, m, hn, hfz, rfl⟩
  · obtain ⟨hc3, hm3, -, -, -, -⟩ := next_slot_question_frame _ s3 (some q) hn
    constructor
    · intro hsw
      obtain ⟨hcf, hmem⟩ := hcstep.1 hsw
      constructor
      · show s3.city_cfg = _
        rw [hc3, hcf]
      · show amsg (switchMsg (detectedCity g)) ∈ s3.messages ++ [amsg q]
        rw [hm3]
        exact List.mem_append_left _ hmem
    · intro hns
      show s3.city_cfg = s.city_cfg
      rw [hc3, hcstep.2 hns]
      exact rfl
  · obtain ⟨hc3, hm3, -, -, -, -⟩ := next_slot_question_frame _ s3 none hn
    obtain ⟨hc4, hm4, -, -, -, -, -⟩ := finalize_case_spec env s3 s4 m hfz
    constructor
    · intro hsw
      obtain ⟨hcf, hmem⟩ := hcstep.1 hsw
      constructor
      · show s4.city_cfg = _
        rw [hc4, hc3, hcf]
      · show amsg (switchMsg (detectedCity g)) ∈ s4.messages ++ [amsg m]
        rw [hm4, hm3]
        exact List.mem_append_left _ hmem
    · intro hns
      show s4.city_cfg = s.city_cfg
      rw [hc4, hc3, hcstep.2 hns]
      exact rfl

/-- The geocoder record for a Raleigh address, used by the C3 witness. -/
def raleighGeo : GeoRecord :=
  ⟨some "10 Glenwood Ave, Raleigh, NC", some "Raleigh", some "NC", some "27603",
   some "35.78000", some "-78.64000"⟩

/-- An environment whose geocoder resolves to Raleigh. -/
def envRaleigh : Env := ⟨some raleighGeo, "250101", "1234", "2025-01-01T00:00:00"⟩

/-- A Morrisville streetlight form at its first (address) field. -/
def morrisStreetlightSess : Session :=
  ⟨make_city_profile "Morrisville" "North Carolina", [], some "streetlight",
   ["nearest_address", "pole_number_optional", "description"], [], [], "Census (free)"⟩

/-- The city profile stored in a turn's result, for binder-free facts. -/
def cityAfter (o : Option Session) : Option CityProfile :=
  Option.map Session.city_cfg o

theorem c3_witness :
    geoSwitchCond raleighGeo morrisStreetlightSess.city_cfg.city
    ∧ cityAfter (push_user_and_process envRaleigh morrisStreetlightSess "10 Glenwood Ave")
        = some (make_city_profile "Raleigh" "North Carolina") := by
  refine ⟨by decide, ?_⟩
  cases hp : push_user_and_process envRaleigh morrisStreetlightSess "10 Glenwood Ave" with
  | none => exact absurd hp (by decide)
  | some s' =>
    have h := (c3_city_switch envRaleigh morrisStreetlightSess "10 Glenwood Ave"
      "nearest_address" ["pole_number_optional", "description"] raleighGeo
      (by decide) (by decide) (by decide) (by decide) (by decide) (by decide)
      (by decide) rfl s' hp).1 (by decide)
    rw [cityAfter]
    show some s'.city_cfg = some (make_city_profile "Raleigh" "North Carolina")
    rw [h.1]
    rfl

/-- C6: when geocoding of an answered address field fails, the turn's
replies include the non-blocking ⚠️ warning, the free-text value stored
for that field is retained (in `filledFields` while the form continues,
or in the finalized ticket's payload when the form completes), the city
profile is untouched, and exactly one further reply — the next
pending-field prompt or the completion confirmation — still follows the
warning: verification failure never blocks or rolls back slot progress. -/
theorem c6_geo_failure_nonblocking (env : Env) (s : Session) (text field : String)
    (rest : List String)
    (hA : pyTruthyOpt s.active_intent = true)
    (hP : s.pending_fields = field :: rest)
    (hf : field = "street_address" ∨ field = "nearest_address")
    (hres : ¬(normalize text = "reset" ∨ normalize text = "restart"
        ∨ normalize text = "start over"))
    (hm : normalize text ≠ "menu") (hc : normalize text ≠ "cancel")
    (hval : pyStrip text ≠ "")
    (hg : env.geo = none) :
    ∀ s', push_user_and_process env s text = some s' →
      (∃ last, s'.messages = s.messages ++ [umsg text, amsg geoFailMsg, last])
      ∧ s'.city_cfg = s.city_cfg
      ∧ ((s'.active_intent = s.active_intent
           ∧ dictGet s'.filled_fields field = some (.vs (pyStrip text))
           ∧ s'.ticket_log = s.ticket_log)
         ∨ (s'.active_intent = none
             ∧ ∃ t : Ticket, s'.ticket_log = s.ticket_log ++ [t]
                 ∧ dictGet t.payload field = some (.vs (pyStrip text)))) := by
  intro s' hs'
  have hA' : pyTruthyOpt (addUser s text).active_intent = true := hA
  have hP0 : (addUser s text).pending_fields ≠ [] := by
    show s.pending_fields ≠ []
    rw [hP]; simp
  rw [push_user_and_process,
      dispatch_midform env (addUser s text) text (normalize text) hres hA' hP0 hm hc] at hs'
  have hpend : (addUser s text).pending_fields = field :: rest := hP
  rw [midformAnswer, hpend] at hs'
  dsimp only at hs'
  have hzip : ¬(field = "zip_optional" ∧ pyStrip text ≠ ""
      ∧ ¬(zipMatch (pyStrip text) = true)) := by
    rcases hf with rfl | rfl <;> simp
  rw [if_neg hzip] at hs'
  have hskip : ¬(normalize text = "skip" ∧ endsOptional field = true) := by
    rintro ⟨-, hopt⟩
    rcases hf with rfl | rfl <;> exact absurd hopt (by decide)
  have hstore : storeAnswer (addUser s text) field (normalize text) (pyStrip text)
      = { addUser s text with
            filled_fields := dictSet (addUser s text).filled_fields field
              (.vs (pyStrip text)) } := by
    rw [storeAnswer, if_neg hskip]
  have hgeo : geoStep env (storeAnswer (addUser s text) field (normalize text) (pyStrip text))
      field (pyStrip text)
      = { addUser s text with
            filled_fields := dictSet (addUser s text).filled_fields field (.vs (pyStrip text))
            messages := (addUser s text).messages ++ [amsg geoFailMsg] } := by
    rw [geoStep, if_pos ⟨hf, hval⟩, hg, hstore]
  rw [hgeo] at hs'
  rcases afterSlot_cases env _ s' hs' with ⟨s3, q, hn, rfl⟩ | ⟨s3, s4, m, hn, hfz, rfl⟩
  · obtain ⟨hc3, hm3, hai3, hfl3, htk3, -⟩ := next_slot_question_frame _ s3 (some q) hn
    refine ⟨⟨amsg q, ?_⟩, ?_, Or.inl ⟨?_, ?_, ?_⟩⟩
    · show s3.messages ++ [amsg q] = _
      rw [hm3]
      show ((s.messages ++ [umsg text]) ++ [amsg geoFailMsg]) ++ [amsg q] = _
      simp
    · show s3.city_cfg = s.city_cfg
      rw [hc3]
      exact rfl
    · show s3.active_intent = s.active_intent
      rw [hai3]
      exact rfl
    · show dictGet s3.filled_fields field = _
      rw [hfl3]
      exact dictGet_dictSet_self ((addUser s text).filled_fields) field (.vs (pyStrip text))
    · show s3.ticket_log = s.ticket_log
      rw [htk3]
      exact rfl
  · obtain ⟨hc3, hm3, hai3, hfl3, htk3, -⟩ :
        s3.city_cfg = _ ∧ s3.messages = _ ∧ s3.active_intent = _
          ∧ s3.filled_fields = _ ∧ s3.ticket_log = _ ∧ s3.addr_provider = _ :=
      next_slot_question_frame _ s3 none hn
    obtain ⟨hc4, hm4, -, -, -, -, t, htk4, -, hpay⟩ := finalize_case_spec env s3 s4 m hfz
    refine ⟨⟨amsg m, ?_⟩, ?_, Or.inr ⟨rfl, t, ?_, ?_⟩⟩
    · show s4.messages ++ [amsg m] = _
      rw [hm4, hm3]
      show ((s.messages ++ [umsg text]) ++ [amsg geoFailMsg]) ++ [amsg m] = _
      simp
    · show s4.city_cfg = s.city_cfg
      rw [hc4, hc3]
      exact rfl
    · show s4.ticket_log = s.ticket_log ++ [t]
      rw [htk4, htk3]
      exact rfl
    · have hf2 : field ≠ "note" ∧ field ≠ "estimated_pickup_day" := by
        rcases hf with rfl | rfl <;> exact ⟨by decide, by decide⟩
      rw [hpay field hf2.1 hf2.2, hfl3]
      exact dictGet_dictSet_self ((addUser s text).filled_fields) field (.vs (pyStrip text))

/-- The stored value of a field in a turn's result, for binder-free
witness statements. -/
def filledValueAfter (o : Option Session) (k : String) : Option (Option FieldVal) :=
  Option.map (fun s => dictGet s.filled_fields k) o

theorem c6_witness :
    envNoGeo.geo = none
    ∧ filledValueAfter (push_user_and_process envNoGeo potholeSess "123 Main St")
        "street_address" = some (some (.vs "123 Main St")) := by
  refine ⟨rfl, ?_⟩
  cases hp : push_user_and_process envNoGeo potholeSess "123 Main St" with
  | none => exact absurd hp (by decide)
  | some s' =>
    have h := c6_geo_failure_nonblocking envNoGeo potholeSess "123 Main St"
      "street_address" ["description", "photo_url_optional"]
      (by decide) (by decide) (by decide) (by decide) (by decide) (by decide)
      (by decide) rfl s' hp
    have hact : s'.active_intent = some "pothole" := by
      have h2 : activeAfter (push_user_and_process envNoGeo potholeSess "123 Main St")
          = some (some "pothole") := by decide
      rw [hp] at h2
      simpa [activeAfter] using h2
    rcases h.2.2 with ⟨-, hst, -⟩ | ⟨hnone, -⟩
    · rw [filledValueAfter]
      show some (dictGet s'.filled_fields "street_address")
          = some (some (FieldVal.vs "123 Main St"))
      rw [hst]
      decide
    · rw [hact] at hnone
      exact absurd hnone (by simp)

/-- C7 (amended): no street-type abbreviation expansion is performed
anywhere in the program.  For every raw address and city hint and every
provider selection, the query string `geocode_any` sends on its first
provider request contains the raw address verbatim as its prefix (it is
either the raw text itself or the raw text followed by the city/state
hint); in particular any abbreviation survives unexpanded. -/
theorem c7_no_abbreviation_expansion (raw city_hint provider : String)
    (googleKeySet : Bool) :
    ∃ tail, geocode_any_query raw city_hint provider googleKeySet = raw ++ tail := by
  rw [geocode_any_query]
  split
  · exact ⟨", " ++ city_hint ++ ", North Carolina", by simp [String.append_assoc]⟩
  · split
    · exact ⟨", " ++ city_hint ++ ", North Carolina", by simp [String.append_assoc]⟩
    · rw [censusOneline]
      split
      · exact ⟨"", by simp⟩
      · exact ⟨", " ++ city_hint ++ ", North Carolina", by simp [String.append_assoc]⟩

/-! ## Claim C9 -/

theorem alist_mem {α : Type} (l : List (String × α)) (k : String) (v : α)
    (h : alist l k = some v) : (k, v) ∈ l := by
  induction l with
  | nil => simp [alist] at h
  | cons p rest ih =>
    obtain ⟨k0, v0⟩ := p
    rw [alist] at h
    by_cases hk : k0 = k
    · rw [if_pos hk] at h
      obtain rfl : v0 = v := by simpa using h
      subst hk
      exact List.mem_cons_self _ _
    · rw [if_neg hk] at h
      exact List.mem_cons_of_mem _ (ih h)

theorem listGetD_append_left {α : Type} (l m : List α) (a : Nat) (d : α)
    (h : a < l.length) : (l ++ m).getD a d = l.getD a d := by
  simp [List.getD, List.getElem?_append_left h]

theorem listGetD_append_len {α : Type} (l : List α) (x : α) (d : α) :
    (l ++ [x]).getD l.length d = x := by
  simp [List.getD, List.getElem?_append_right (le_refl l.length)]

theorem readDesc_writeDesc_ne (h : Heap) (a b : Nat) (o : DescObj) (hab : a ≠ b) :
    readDesc (writeDesc h a o) b = readDesc h b := by
  show (h.descs.set a o).getD b _ = h.descs.getD b _
  simp [List.getD, List.getElem?_set_ne hab]

theorem readList_writeList_self (h : Heap) (a : Nat) (l : List String)
    (ha : a < h.lists.length) :
    readList (writeList h a l) a = l := by
  show (h.lists.set a l).getD a [] = l
  simp [List.getD, List.getElem?_set_self, ha]

/-- Allocation only appends: old descriptors keep their addresses and
contents. -/
theorem allocServices_extends (svcs : Services) : ∀ h : Heap,
    h.descs.length ≤ (allocServices h svcs).1.descs.length
    ∧ h.lists.length ≤ (allocServices h svcs).1.lists.length
    ∧ (∀ a, a < h.descs.length →
        readDesc (allocServices h svcs).1 a = readDesc h a) := by
  induction svcs with
  | nil => exact fun h => ⟨le_refl _, le_refl _, fun a _ => rfl⟩
  | cons q rest ih =>
    intro h
    obtain ⟨k, d⟩ := q
    rw [allocServices]
    dsimp only
    obtain ⟨ih1, ih2, ih3⟩ := ih
      ⟨h.lists ++ [d.fields], h.descs ++ [⟨d.description, h.lists.length, d.link, d.sla_days⟩]⟩
    refine ⟨le_trans (by simp) ih1, le_trans (by simp) ih2, ?_⟩
    intro a ha
    rw [ih3 a (by simp; omega)]
    show (h.descs ++ [_]).getD a _ = h.descs.getD a _
    exact listGetD_append_left _ _ a _ ha

/-- Every descriptor address a template allocation hands out is fresh
(at or above the prior heap top), valid, and refers to a valid list. -/
theorem allocServices_valid (svcs : Services) : ∀ h : Heap,
    ∀ p ∈ (allocServices h svcs).2,
      h.descs.length ≤ p.2
      ∧ p.2 < (allocServices h svcs).1.descs.length
      ∧ (readDesc (allocServices h svcs).1 p.2).fieldsRef
          < (allocServices h svcs).1.lists.length := by
  induction svcs with
  | nil => intro h p hp; simp [allocServices] at hp
  | cons q rest ih =>
    intro h p hp
    obtain ⟨k, d⟩ := q
    rw [allocServices] at hp ⊢
    dsimp only at hp ⊢
    obtain ⟨ext1, ext2, ext3⟩ := allocServices_extends rest
      ⟨h.lists ++ [d.fields], h.descs ++ [⟨d.description, h.lists.length, d.link, d.sla_days⟩]⟩
    rcases List.mem_cons.mp hp with rfl | hp'
    · refine ⟨le_refl _, lt_of_lt_of_le (by simp) ext1, ?_⟩
      rw [ext3 h.descs.length (by simp)]
      have hrd : readDesc
          ⟨h.lists ++ [d.fields], h.descs ++ [⟨d.description, h.lists.length, d.link, d.sla_days⟩]⟩
          h.descs.length = ⟨d.description, h.lists.length, d.link, d.sla_days⟩ := by
        show (h.descs ++ [_]).getD h.descs.length _ = _
        exact listGetD_append_len _ _ _
      rw [hrd]
      exact lt_of_lt_of_le (by simp) ext2
    · obtain ⟨ih1, ih2, ih3⟩ := ih _ p hp'
      exact ⟨le_trans (by simp) ih1, ih2, ih3⟩

/-- The copy changes no lists and only appends descriptors. -/
theorem copyServices_extends (t : ServicesH) : ∀ h : Heap,
    (copyServices h t).1.lists = h.lists
    ∧ h.descs.length ≤ (copyServices h t).1.descs.length
    ∧ (∀ a, a < h.descs.length →
        readDesc (copyServices h t).1 a = readDesc h a) := by
  induction t with
  | nil => exact fun h => ⟨rfl, le_refl _, fun a _ => rfl⟩
  | cons q rest ih =>
    intro h
    obtain ⟨k, da⟩ := q
    rw [copyServices]
    dsimp only
    obtain ⟨ih1, ih2, ih3⟩ := ih ⟨h.lists, h.descs ++ [readDesc h da]⟩
    refine ⟨ih1, le_trans (by simp) ih2, ?_⟩
    intro a ha
    rw [ih3 a (by simp; omega)]
    show (h.descs ++ [readDesc h da]).getD a _ = h.descs.getD a _
    exact listGetD_append_left _ _ a _ ha

/-- `{k: dict(v) for k, v in base.items()}`: the copy reproduces the keys,
every copied descriptor is a fresh object (allocated at or above the old
heap top), and its contents — including the nested list reference — are
exactly those of the template descriptor with the same key. -/
theorem copyServices_spec (t : ServicesH) : ∀ h : Heap,
    (∀ p ∈ t, p.2 < h.descs.length) →
    ((copyServices h t).2.map Prod.fst = t.map Prod.fst)
    ∧ (∀ q ∈ (copyServices h t).2, h.descs.length ≤ q.2)
    ∧ (∀ k pa, alist (copyServices h t).2 k = some pa →
        ∃ ta, alist t k = some ta
          ∧ readDesc (copyServices h t).1 pa = readDesc h ta) := by
  induction t with
  | nil =>
    intro h hv
    refine ⟨rfl, by simp [copyServices], ?_⟩
    intro k pa hpa
    simp [copyServices, alist] at hpa
  | cons q rest ih =>
    intro h hv
    obtain ⟨k0, ta0⟩ := q
    rw [copyServices]
    dsimp only
    have hta0 : ta0 < h.descs.length := hv (k0, ta0) (List.mem_cons_self _ _)
    obtain ⟨ce1, ce2, ce3⟩ := copyServices_extends rest ⟨h.lists, h.descs ++ [readDesc h ta0]⟩
    obtain ⟨ih1, ih2, ih3⟩ := ih ⟨h.lists, h.descs ++ [readDesc h ta0]⟩
      (fun p hp => lt_of_lt_of_le (hv p (List.mem_cons_of_mem _ hp)) (by simp))
    refine ⟨by simpa using ih1, ?_, ?_⟩
    · intro q hq
      rcases List.mem_cons.mp hq with rfl | hq'
      · exact le_refl _
      · exact le_trans (by simp) (ih2 q hq')
    · intro k pa hpa
      rw [alist] at hpa
      by_cases hk : k0 = k
      · rw [if_pos hk] at hpa
        obtain rfl : h.descs.length = pa := by simpa using hpa
        refine ⟨ta0, by rw [alist, if_pos hk], ?_⟩
        rw [ce3 h.descs.length (by simp)]
        show (h.descs ++ [readDesc h ta0]).getD h.descs.length _ = _
        exact listGetD_append_len _ _ _
      · rw [if_neg hk] at hpa
        obtain ⟨ta, hta, hread⟩ := ih3 k pa hpa
        refine ⟨ta, by rw [alist, if_neg hk]; exact hta, ?_⟩
        rw [hread]
        have hta_lt : ta < h.descs.length :=
          hv (k, ta) (List.mem_cons_of_mem _ (alist_mem _ _ _ hta))
        show (h.descs ++ [readDesc h ta0]).getD ta _ = h.descs.getD ta _
        exact listGetD_append_left _ _ ta _ hta_lt

/-- The catalog template for a city, allocated into an empty heap
(the literal dicts and lists of `NC_JURIS_CONFIG`). -/
def templateAlloc (city : String) : Heap × ServicesH :=
  allocServices emptyHeap (cfgGetD city)

/-- A profile built from the template by `make_city_profile`'s
`{k: dict(v) ...}` copy. -/
def profileAlloc (city : String) : Heap × ServicesH :=
  copyServices (templateAlloc city).1 (templateAlloc city).2

/-- C9 (amended): a profile adapted from any city's catalog entry copies
each service descriptor one level deep — the profile's descriptor objects
are fresh (distinct addresses from the template's), so overwriting a
profile descriptor never changes the template descriptor; but each copied
descriptor holds the SAME `fields`-list reference as the template's, so
an in-place write to the list through the profile's descriptor is read
back through the template's descriptor: nested mutation leaks into the
catalog template. -/
theorem c9_profile_copy_sharing (city : String) :
    (profileAlloc city).2.map Prod.fst = (templateAlloc city).2.map Prod.fst
    ∧ ∀ k pa ta,
        alist (profileAlloc city).2 k = some pa →
        alist (templateAlloc city).2 k = some ta →
        pa ≠ ta
        ∧ (∀ o : DescObj, readDesc (writeDesc (profileAlloc city).1 pa o) ta
              = readDesc (profileAlloc city).1 ta)
        ∧ (readDesc (profileAlloc city).1 pa).fieldsRef
            = (readDesc (profileAlloc city).1 ta).fieldsRef
        ∧ (∀ l : List String,
            readList (writeList (profileAlloc city).1
                (readDesc (profileAlloc city).1 pa).fieldsRef l)
              (readDesc (profileAlloc city).1 ta).fieldsRef = l) := by
  rw [show profileAlloc city
      = copyServices (templateAlloc city).1 (templateAlloc city).2 from rfl]
  have hvalid := allocServices_valid (cfgGetD city) emptyHeap
  have hcext := copyServices_extends (templateAlloc city).2 (templateAlloc city).1
  have hcspec := copyServices_spec (templateAlloc city).2 (templateAlloc city).1
    (fun p hp => (hvalid p hp).2.1)
  refine ⟨hcspec.1, ?_⟩
  intro k pa ta hpa hta
  obtain ⟨ta', hta', hread⟩ := hcspec.2.2 k pa hpa
  have hEq : ta' = ta := by rw [hta'] at hta; exact Option.some.inj hta
  rw [hEq] at hread
  have htmem : (k, ta) ∈ (templateAlloc city).2 := alist_mem _ _ _ hta
  have hta_lt : ta < (templateAlloc city).1.descs.length := (hvalid (k, ta) htmem).2.1
  have hpa_ge : (templateAlloc city).1.descs.length ≤ pa :=
    hcspec.2.1 (k, pa) (alist_mem _ _ _ hpa)
  have hne : pa ≠ ta := by omega
  have hta_read : readDesc (copyServices (templateAlloc city).1 (templateAlloc city).2).1 ta
      = readDesc (templateAlloc city).1 ta :=
    hcext.2.2 ta hta_lt
  have hshare : (readDesc (copyServices (templateAlloc city).1 (templateAlloc city).2).1 pa).fieldsRef
      = (readDesc (copyServices (templateAlloc city).1 (templateAlloc city).2).1 ta).fieldsRef := by
    rw [hread, hta_read]
  refine ⟨hne, ?_, hshare, ?_⟩
  · exact fun o => readDesc_writeDesc_ne _ pa ta o hne
  · intro l
    rw [hshare]
    refine readList_writeList_self _ _ l ?_
    have hlists : (copyServices (templateAlloc city).1 (templateAlloc city).2).1.lists
        = (templateAlloc city).1.lists := hcext.1
    rw [hta_read, hlists]
    exact (hvalid (k, ta) htmem).2.2

theorem c9_witness :
    alist (profileAlloc "Morrisville").2 "trash_schedule" = some 7
    ∧ alist (templateAlloc "Morrisville").2 "trash_schedule" = some 1
    ∧ (7 ≠ 1
        ∧ (∀ o : DescObj, readDesc (writeDesc (profileAlloc "Morrisville").1 7 o) 1
              = readDesc (profileAlloc "Morrisville").1 1)
        ∧ (readDesc (profileAlloc "Morrisville").1 7).fieldsRef
            = (readDesc (profileAlloc "Morrisville").1 1).fieldsRef
        ∧ (∀ l : List String,
            readList (writeList (profileAlloc "Morrisville").1
                (readDesc (profileAlloc "Morrisville").1 7).fieldsRef l)
              (readDesc (profileAlloc "Morrisville").1 1).fieldsRef = l)) :=
  ⟨by decide, by decide,
   (c9_profile_copy_sharing "Morrisville").2 "trash_schedule" 7 1 (by decide) (by decide)⟩

/-- Morrisville's template allocation, its profile copy, and the heap
after appending "hacked" to the fields list reached through the
PROFILE's pothole descriptor. -/
def c9Tmpl : Heap × ServicesH := templateAlloc "Morrisville"

def c9Prof : Heap × ServicesH := profileAlloc "Morrisville"

def c9ProfPotholeAddr : Nat := (alist c9Prof.2 "pothole").getD 0

def c9TmplPotholeAddr : Nat := (alist c9Tmpl.2 "pothole").getD 0

def c9Mutated : Heap :=
  writeList c9Prof.1 (readDesc c9Prof.1 c9ProfPotholeAddr).fieldsRef
    (readList c9Prof.1 (readDesc c9Prof.1 c9ProfPotholeAddr).fieldsRef ++ ["hacked"])

/-- C9 counterexample: the profile's pothole descriptor is a distinct
object from the template's, yet appending an element to the fields list
through the PROFILE's descriptor changes the fields seen through the
CATALOG TEMPLATE's descriptor — mutating a nested value of one profile's
descriptor does change the catalog template, contrary to the claim. -/
theorem c9_counterexample :
    c9ProfPotholeAddr ≠ c9TmplPotholeAddr
    ∧ (viewDesc c9Prof.1 c9TmplPotholeAddr).fields
        = ["street_address", "description", "photo_url_optional"]
    ∧ (viewDesc c9Mutated c9TmplPotholeAddr).fields
        = ["street_address", "description", "photo_url_optional", "hacked"] :=
  ⟨by decide, by decide, by decide⟩

/-! ## Claim C2 -/

/-- Every hardcoded required-field list is duplicate-free and does not
contain the synthetic `address_verified` key. -/
theorem required_fields_ok :
    ∀ p ∈ REQUIRED_FIELDS, p.2.Nodup ∧ "address_verified" ∉ p.2 := by decide

/-- Every catalog service field list is duplicate-free and does not
contain the synthetic `address_verified` key. -/
theorem catalog_fields_ok :
    ∀ ce ∈ NC_JURIS_CONFIG, ∀ se ∈ ce.2, se.2.fields.Nodup
      ∧ "address_verified" ∉ se.2.fields := by decide

theorem required_ok (i : String) :
    ((alist REQUIRED_FIELDS i).getD []).Nodup
      ∧ "address_verified" ∉ (alist REQUIRED_FIELDS i).getD [] := by
  cases h : alist REQUIRED_FIELDS i with
  | none => simp
  | some r =>
    have hm := alist_mem _ _ _ h
    rw [Option.getD_some]
    simpa using required_fields_ok _ hm

theorem profile_fields_ok (c st i : String) (svc : SvcDesc)
    (hsvc : alist (make_city_profile c st).services i = some svc) :
    svc.fields.Nodup ∧ "address_verified" ∉ svc.fields := by
  have hmem : (i, svc) ∈ cfgGetD c := alist_mem (cfgGetD c) i svc hsvc
  rw [cfgGetD] at hmem
  cases h : alist NC_JURIS_CONFIG c with
  | none =>
    rw [h, Option.getD_none] at hmem
    have hd : ("_DEFAULT", DEFAULT_SERVICES) ∈ NC_JURIS_CONFIG := by decide
    simpa using catalog_fields_ok _ hd _ hmem
  | some svcs =>
    rw [h, Option.getD_some] at hmem
    simpa using catalog_fields_ok _ (alist_mem _ _ _ h) _ hmem

/-- Storing any value for key `k` removes exactly the `k` entries from the
recomputed outstanding-field list: the recomputation against the updated
map is the old recomputation filtered by `≠ k`. -/
theorem orderedFields_dictSet (i : String) (svc : SvcDesc)
    (filled : List (String × FieldVal)) (k : String) (v : FieldVal) :
    orderedFields i svc (dictSet filled k v)
      = (orderedFields i svc filled).filter (fun f => !(f == k)) := by
  rw [orderedFields, orderedFields, List.filter_append, List.filter_filter,
      List.filter_filter]
  congr 1
  · exact List.filter_congr (fun f _ => by
      simp [dmem_dictSet, Bool.not_or, Bool.and_comm])
  · exact List.filter_congr (fun f _ => by
      simp [dmem_dictSet, Bool.not_or, Bool.and_comm, Bool.and_left_comm, Bool.and_assoc])

theorem orderedFields_nodup (i : String) (svc : SvcDesc)
    (filled : List (String × FieldVal))
    (hndr : ((alist REQUIRED_FIELDS i).getD []).Nodup) (hnds : svc.fields.Nodup) :
    (orderedFields i svc filled).Nodup := by
  rw [orderedFields]
  refine List.Nodup.append (hndr.filter _) (hnds.filter _) ?_
  intro a ha hb
  have h1 : a ∈ (alist REQUIRED_FIELDS i).getD [] := (List.mem_filter.mp ha).1
  have h2 := (List.mem_filter.mp hb).2
  simp only [Bool.and_eq_true, Bool.not_eq_true'] at h2
  have : ((alist REQUIRED_FIELDS i).getD []).contains a = true :=
    List.elem_eq_true_of_mem h1
  rw [this] at h2
  exact absurd h2.1 (by simp)

theorem not_mem_orderedFields (i : String) (svc : SvcDesc)
    (filled : List (String × FieldVal)) (x : String)
    (hx1 : x ∉ (alist REQUIRED_FIELDS i).getD []) (hx2 : x ∉ svc.fields) :
    x ∉ orderedFields i svc filled := by
  rw [orderedFields]
  intro hmem
  rcases List.mem_append.mp hmem with h | h
  · exact hx1 (List.mem_filter.mp h).1
  · exact hx2 (List.mem_filter.mp h).1

/-- Accepting the head answer removes exactly that field: the
recomputation against the updated map is the tail of the old list. -/
theorem orderedFields_consume (i : String) (svc : SvcDesc)
    (filled : List (String × FieldVal)) (h : String) (rest : List String)
    (hndr : ((alist REQUIRED_FIELDS i).getD []).Nodup) (hnds : svc.fields.Nodup)
    (hord : orderedFields i svc filled = h :: rest) (v : FieldVal) :
    orderedFields i svc (dictSet filled h v) = rest := by
  have hnd : (h :: rest).Nodup := hord ▸ orderedFields_nodup i svc filled hndr hnds
  have hh : h ∉ rest := (List.nodup_cons.mp hnd).1
  rw [orderedFields_dictSet, hord, List.filter_cons, if_neg (by simp)]
  refine List.filter_eq_self.mpr (fun a ha => ?_)
  simp only [Bool.not_eq_true', beq_eq_false_iff_ne, ne_eq]
  intro e
  exact hh (e ▸ ha)

/-- Accepting the head answer and additionally storing the
`address_verified` record still removes exactly the head field. -/
theorem orderedFields_consume_av (i : String) (svc : SvcDesc)
    (filled : List (String × FieldVal)) (fd : String) (rest : List String)
    (hndr : ((alist REQUIRED_FIELDS i).getD []).Nodup) (hnds : svc.fields.Nodup)
    (havr : "address_verified" ∉ (alist REQUIRED_FIELDS i).getD [])
    (havs : "address_verified" ∉ svc.fields)
    (hord : orderedFields i svc filled = fd :: rest) (v w : FieldVal) :
    orderedFields i svc (dictSet (dictSet filled fd v) "address_verified" w) = rest := by
  have e1 := orderedFields_consume i svc filled fd rest hndr hnds hord v
  rw [orderedFields_dictSet, e1]
  refine List.filter_eq_self.mpr (fun a ha => ?_)
  simp only [Bool.not_eq_true', beq_eq_false_iff_ne, ne_eq]
  intro e
  refine not_mem_orderedFields i svc filled "address_verified" havr havs ?_
  rw [hord]
  exact List.mem_cons_of_mem _ (e ▸ ha)

/-- When the resolved city never satisfies the switch condition, the
geocode block leaves the city profile alone and at most adds the
`address_verified` entry to the filled map. -/
theorem geoStep_noswitch_frame (env : Env) (σ : Session) (field val : String)
    (hnos : ∀ g, env.geo = some g → ¬ geoSwitchCond g σ.city_cfg.city) :
    (geoStep env σ field val).city_cfg = σ.city_cfg
    ∧ ((geoStep env σ field val).filled_fields = σ.filled_fields
       ∨ ∃ w, (geoStep env σ field val).filled_fields
           = dictSet σ.filled_fields "address_verified" w) := by
  rw [geoStep]
  split
  · cases hg : env.geo with
    | none => exact ⟨rfl, Or.inl rfl⟩
    | some g =>
      dsimp only
      rw [if_neg (hnos g hg)]
      exact ⟨rfl, Or.inr ⟨_, rfl⟩⟩
  · exact ⟨rfl, Or.inl rfl⟩

/-- The controller-level consume step: in a mid-form turn whose pending
list is the recomputed list, an accepted answer (stored value or
`skip`-null alike) that triggers no city switch leaves `pending_fields`
equal to exactly the old tail — whether the form continues with a prompt
or completes through the finalizer. -/
theorem midformAnswer_pending (env : Env) (s : Session) (text tnorm field : String)
    (rest : List String) (i : String) (svc : SvcDesc)
    (hA : s.active_intent = some i) (hne : i ≠ "")
    (hsvc : alist s.city_cfg.services i = some svc)
    (hndr : ((alist REQUIRED_FIELDS i).getD []).Nodup)
    (hnds : svc.fields.Nodup)
    (havr : "address_verified" ∉ (alist REQUIRED_FIELDS i).getD [])
    (havs : "address_verified" ∉ svc.fields)
    (hpend : s.pending_fields = field :: rest)
    (hord : orderedFields i svc s.filled_fields = field :: rest)
    (hzip : ¬(field = "zip_optional" ∧ pyStrip text ≠ "" ∧ ¬(zipMatch (pyStrip text) = true)))
    (hnos : ∀ g, env.geo = some g → ¬ geoSwitchCond g s.city_cfg.city)
    (s' : Session) (h : midformAnswer env s text tnorm = some s') :
    s'.pending_fields = rest := by
  rw [midformAnswer, hpend] at h
  dsimp only at h
  rw [if_neg hzip] at h
  obtain ⟨v, hfil⟩ : ∃ v, (storeAnswer s field tnorm (pyStrip text)).filled_fields
      = dictSet s.filled_fields field v := by
    by_cases hsk : (tnorm = "skip" ∧ endsOptional field = true)
    · exact ⟨FieldVal.vnone, by rw [storeAnswer, if_pos hsk]⟩
    · exact ⟨.vs (pyStrip text), by rw [storeAnswer, if_neg hsk]⟩
  obtain ⟨hcity2, hfil2⟩ :=
    geoStep_noswitch_frame env (storeAnswer s field tnorm (pyStrip text)) field
      (pyStrip text) hnos
  have hact2 : (geoStep env (storeAnswer s field tnorm (pyStrip text)) field
      (pyStrip text)).active_intent = some i := by
    rw [(geoStep_frame env (storeAnswer s field tnorm (pyStrip text)) field
      (pyStrip text)).1]
    exact hA
  have hcity2' : (geoStep env (storeAnswer s field tnorm (pyStrip text)) field
      (pyStrip text)).city_cfg = s.city_cfg := hcity2
  have hsvc2 : alist (geoStep env (storeAnswer s field tnorm (pyStrip text)) field
      (pyStrip text)).city_cfg.services i = some svc := by
    rw [hcity2']
    exact hsvc
  have hord2 : orderedFields i svc (geoStep env (storeAnswer s field tnorm (pyStrip text))
      field (pyStrip text)).filled_fields = rest := by
    rcases hfil2 with hf2 | ⟨w, hf2⟩
    · rw [hf2, hfil]
      exact orderedFields_consume i svc s.filled_fields field rest hndr hnds hord v
    · rw [hf2, hfil]
      exact orderedFields_consume_av i svc s.filled_fields field rest hndr hnds havr havs
        hord v w
  have hns := next_slot_question_eq
    (geoStep env (storeAnswer s field tnorm (pyStrip text)) field (pyStrip text))
    i svc hact2 hne hsvc2
  rcases afterSlot_cases env _ s' h with ⟨s3, q, hn, rfl⟩ | ⟨s3, s4, m, hn, hfz, rfl⟩
  · rw [hns] at hn
    obtain ⟨rfl, hq⟩ := by simpa using hn
    exact hord2
  · rw [hns] at hn
    obtain ⟨rfl, hq⟩ := by simpa using hn
    rw [hord2] at hq
    cases rest with
    | nil => exact rfl
    | cons a as => simp [promptFor] at hq

/-- The property claim C2 asserts of the slot-filling engine for a session
with an active intent: the recomputed list is the intent's hardcoded
required fields (in required-list order) not yet filled, followed by the
profile's service fields neither required nor filled; it is stored back on
the session with the prompt for its head (canned question, generic
`Provide <field>:` fallback, or `none` when empty); it never reintroduces
a filled field; with the city profile unchanged, accepting the head
answer (also when the `address_verified` record is stored alongside)
recomputes to exactly the tail, i.e. strictly shorter by exactly one; and
the same holds through the dispatcher: a mid-form turn whose utterance is
an accepted answer and triggers no city switch ends with `pending_fields`
equal to exactly the old tail. -/
def C2Prop (s : Session) (i : String) (svc : SvcDesc) : Prop :=
  next_slot_question s
      = some ({ s with pending_fields := orderedFields i svc s.filled_fields },
              promptFor (orderedFields i svc s.filled_fields))
  ∧ orderedFields i svc s.filled_fields
      = ((alist REQUIRED_FIELDS i).getD []).filter (fun f => !(dmem s.filled_fields f))
        ++ svc.fields.filter (fun f =>
            !(((alist REQUIRED_FIELDS i).getD []).contains f) && !(dmem s.filled_fields f))
  ∧ (∀ f ∈ orderedFields i svc s.filled_fields, dmem s.filled_fields f = false)
  ∧ (∀ h rest, orderedFields i svc s.filled_fields = h :: rest →
      ∀ v w : FieldVal,
        orderedFields i svc (dictSet s.filled_fields h v) = rest
        ∧ orderedFields i svc (dictSet (dictSet s.filled_fields h v) "address_verified" w)
            = rest)
  ∧ (∀ f fs, orderedFields i svc s.filled_fields = f :: fs →
      promptFor (orderedFields i svc s.filled_fields)
        = some ((alist FIELD_QUESTIONS f).getD ("Provide " ++ f ++ ":")))
  ∧ (orderedFields i svc s.filled_fields = [] →
      promptFor (orderedFields i svc s.filled_fields) = none)
  ∧ (∀ (env : Env) (text field : String) (rest : List String),
      s.pending_fields = orderedFields i svc s.filled_fields →
      orderedFields i svc s.filled_fields = field :: rest →
      ¬(normalize text = "reset" ∨ normalize text = "restart"
          ∨ normalize text = "start over") →
      normalize text ≠ "menu" → normalize text ≠ "cancel" →
      ¬(field = "zip_optional" ∧ pyStrip text ≠ ""
          ∧ ¬(zipMatch (pyStrip text) = true)) →
      (∀ g, env.geo = some g → ¬ geoSwitchCond g s.city_cfg.city) →
      ∀ s', push_user_and_process env s text = some s' →
        s'.pending_fields = rest
        ∧ s'.pending_fields.length + 1 = s.pending_fields.length)

/-- C2 (amended): for a session whose city profile is an adapted catalog
profile, the recomputed pending-field list and prompt behave as the claim
states, and each accepted answer — at the recompute level and through the
`push_user_and_process` dispatcher alike — shortens the pending list by
exactly one field, PROVIDED the turn leaves the city profile unchanged; a
mid-turn city switch replaces the service-field tail and can shrink the
list by more than one (see the counterexample). -/
theorem c2_slot_recompute_amended (c st : String) (s : Session) (i : String)
    (svc : SvcDesc)
    (hA : s.active_intent = some i) (hne : i ≠ "")
    (hcfg : s.city_cfg = make_city_profile c st)
    (hsvc : alist s.city_cfg.services i = some svc) :
    C2Prop s i svc := by
  have hsvc' : alist (make_city_profile c st).services i = some svc := hcfg ▸ hsvc
  obtain ⟨hnds, havs⟩ := profile_fields_ok c st i svc hsvc'
  obtain ⟨hndr, havr⟩ := required_ok i
  refine ⟨next_slot_question_eq s i svc hA hne hsvc, rfl, ?_, ?_, ?_, ?_, ?_⟩
  · intro f hf
    rw [orderedFields] at hf
    rcases List.mem_append.mp hf with hmem | hmem
    · simpa using (List.mem_filter.mp hmem).2
    · have h2 := (List.mem_filter.mp hmem).2
      simp only [Bool.and_eq_true, Bool.not_eq_true'] at h2
      exact h2.2
  · intro h rest hord v w
    exact ⟨orderedFields_consume i svc s.filled_fields h rest hndr hnds hord v,
           orderedFields_consume_av i svc s.filled_fields h rest hndr hnds havr havs
             hord v w⟩
  · intro f fs hf
    rw [hf, promptFor]
  · intro hf
    rw [hf, promptFor]
  · intro env text field rest hpinv hord hres hm hc hzip hnos s' hs'
    have hA' : pyTruthyOpt (addUser s text).active_intent = true := by
      show pyTruthyOpt s.active_intent = true
      rw [hA]
      simp [pyTruthyOpt, hne]
    have hP0 : (addUser s text).pending_fields ≠ [] := by
      show s.pending_fields ≠ []
      rw [hpinv, hord]
      simp
    rw [push_user_and_process,
        dispatch_midform env (addUser s text) text (normalize text) hres hA' hP0 hm hc]
      at hs'
    have hpend' : (addUser s text).pending_fields = field :: rest := by
      show s.pending_fields = field :: rest
      rw [hpinv, hord]
    have hploc : s'.pending_fields = rest :=
      midformAnswer_pending env (addUser s text) text (normalize text) field rest i svc
        hA hne hsvc hndr hnds havr havs hpend' hord hzip hnos s' hs'
    refine ⟨hploc, ?_⟩
    rw [hploc, hpinv, hord]
    simp

/-- Morrisville's pothole descriptor, for the C2 witness. -/
def morrisPotholeSvc : SvcDesc :=
  ⟨"Report a pothole or road issue on Town-owned roads",
   ["street_address", "description", "photo_url_optional"],
   "https://www.morrisvillenc.gov/services/report-a-problem-with/town-owned-roadways",
   some 5⟩

theorem c2_witness :
    potholeSess.active_intent = some "pothole"
    ∧ alist potholeSess.city_cfg.services "pothole" = some morrisPotholeSvc
    ∧ C2Prop potholeSess "pothole" morrisPotholeSvc :=
  ⟨rfl, by decide,
   c2_slot_recompute_amended "Morrisville" "North Carolina" potholeSess "pothole"
     morrisPotholeSvc rfl (by decide) rfl (by decide)⟩

/-- The pending-field count in a turn's result. -/
def pendingLenAfter (o : Option Session) : Option Nat :=
  Option.map (fun s => s.pending_fields.length) o

/-- Morrisville's streetlight descriptor, for the C2 counterexample. -/
def morrisStreetlightSvc : SvcDesc :=
  ⟨"Report a streetlight outage",
   ["nearest_address", "pole_number_optional", "description"],
   "https://www.morrisvillenc.gov/services/report-a-problem-with/town-owned-roadways",
   some 7⟩

/-- C2 counterexample: in a Morrisville streetlight form whose pending
list is exactly the engine's recomputed list (three fields), answering
the address field with an accepted (stored) answer that geocodes to
Raleigh switches the profile mid-turn; the recomputed pending list then
has length 1 — it shrank by two, not by exactly one as the claim
states. -/
theorem c2_counterexample :
    alist morrisStreetlightSess.city_cfg.services "streetlight"
        = some morrisStreetlightSvc
    ∧ morrisStreetlightSess.pending_fields
        = orderedFields "streetlight" morrisStreetlightSvc
            morrisStreetlightSess.filled_fields
    ∧ morrisStreetlightSess.pending_fields.length = 3
    ∧ filledValueAfter
        (push_user_and_process envRaleigh morrisStreetlightSess "10 Glenwood Ave")
        "nearest_address" = some (some (.vs "10 Glenwood Ave"))
    ∧ pendingLenAfter
        (push_user_and_process envRaleigh morrisStreetlightSess "10 Glenwood Ave")
        = some 1 :=
  ⟨by decide, by decide, by decide, by decide, by decide⟩

end NC311
